import Mathlib

/-!
# Server crash handler (cf_crashhandler_server.cpp): embedding and properties

The static members of `CServerCrashHandler`, the file-scope statics of
`cf_crashhandler_server.cpp`, and the parts of the operating system the
handler talks to (signal dispositions, files, the standard error stream) are
gathered in one `State` record. Every member function is a pure function on
that record. Results of platform queries (`uname`, `time`, `rand`,
`getrusage`, `fopen`, `backtrace`, `dladdr`, ...) are read from an `Env`
record supplied by the caller of each operation.

Text is modelled by `String`: a value of type `String` holds the characters
that precede the terminating NUL of a C string, one character per byte.
A possibly-null `const char*` is an `Option String`; a pointer value is a
`Nat` with `0` for `NULL`.
-/

/-! ## printf-style formatting -/

/-- Text cut to its first `n` characters. -/
def truncate (n : Nat) (s : String) : String := ⟨s.data.take n⟩

/-- Pad on the left with `c` up to width `w` (right-justified field). -/
def padLeft (c : Char) (w : Nat) (s : String) : String :=
  ⟨List.replicate (w - s.data.length) c ++ s.data⟩

/-- Pad on the right with `c` up to width `w` (left-justified field). -/
def padRight (c : Char) (w : Nat) (s : String) : String :=
  ⟨s.data ++ List.replicate (w - s.data.length) c⟩

/-- Lowercase hexadecimal digits of `n`, as printed by `%x`. -/
def hexDigits (n : Nat) : String := ⟨Nat.toDigits 16 n⟩

/-- Conversion `%d`. -/
def fmt_d (n : Int) : String := toString n

/-- Conversion `%0<w>d`: zero padding goes between the sign and the digits. -/
def fmt_0d (w : Nat) (n : Int) : String :=
  if n < 0 then "-" ++ padLeft '0' (w - 1) (toString n.natAbs)
  else padLeft '0' w (toString n.natAbs)

/-- Conversion `%-2d`: left-justified in a field of width 2. -/
def fmt_ld2 (n : Int) : String := padRight ' ' 2 (fmt_d n)

/-- Conversion `%0<w>x` of an unsigned value. -/
def fmt_0x (w : Nat) (n : Nat) : String := padLeft '0' w (hexDigits n)

/-- Conversion `%p` as glibc prints it: `(nil)` for a null pointer, otherwise
`0x` and the hexadecimal digits. -/
def fmt_p (a : Nat) : String := if a = 0 then "(nil)" else "0x" ++ hexDigits a

/-- Conversion `%tx`: a `ptrdiff_t` printed as an unsigned 64-bit hexadecimal
number. -/
def fmt_tx (d : Int) : String := hexDigits (d % 2 ^ 64).toNat

/-- Conversion of a value to `int` (32 bits, two's complement). -/
def toInt32 (x : Int) : Int := (x + 2 ^ 31) % 2 ^ 32 - 2 ^ 31

/-- Modelled from the spec: `V_strncpy` (tier1/strtools) is not among the
sources; "the store uses fixed-capacity text fields with truncation, not
dynamic growth". The destination of capacity `maxLen` receives at most
`maxLen - 1` characters of the source, followed by the terminating NUL. -/
def V_strncpy (src : String) (maxLen : Nat) : String := truncate (maxLen - 1) src

/-- Modelled from the spec: `V_snprintf` (tier1/strtools) is not among the
sources; like `V_strncpy` it fills a fixed-capacity field with truncation. The
argument is the fully formatted text. -/
def V_snprintf (maxLen : Nat) (formatted : String) : String := truncate (maxLen - 1) formatted

/-! ## Constants -/

def MAX_STACK_FRAMES : Nat := 64

def CRASH_LOG_DIR : String := "customfortress/crashes"

/-- Modelled from the spec: `<signal.h>` is not among the sources; the
intercepted signals are "the fixed set {segmentation fault, abort,
floating-point exception, illegal instruction, bus error}". The numbers are
those of Linux on x86 and ARM. -/
def SIGSEGV : Int := 11

/-- Modelled from the spec: see `SIGSEGV`. -/
def SIGABRT : Int := 6

/-- Modelled from the spec: see `SIGSEGV`. -/
def SIGFPE : Int := 8

/-- Modelled from the spec: see `SIGSEGV`. -/
def SIGILL : Int := 4

/-- Modelled from the spec: see `SIGSEGV`. -/
def SIGBUS : Int := 7

/-- Flag bits of `sa_flags` (Linux values; `<signal.h>` is not among the
sources). -/
def SA_SIGINFO : Nat := 4

def SA_RESETHAND : Nat := 0x80000000

/-! ## Data model -/

/-- The struct `ServerCrashMetadata_t` of cf_crashhandler_server.h. The
comment on each field gives the capacity of its buffer. -/
structure ServerCrashMetadata_t where
  szVersion : String      -- char[64]
  szMap : String          -- char[128]
  szGameMode : String     -- char[64]
  szTimestamp : String    -- char[64]
  szCrashID : String      -- char[40]
  nMemoryUsageMB : Int
  nUptime : Int
  nPlayerCount : Int
  nTickRate : Int
  szOS : String           -- char[128]
  szSignal : String       -- char[64]
  bDedicated : Bool
  deriving DecidableEq, Repr

/-- The value `V_memset( &s_Metadata, 0, sizeof( s_Metadata ) )` leaves; also
the value of the zero-initialised static before `Init`. -/
def ServerCrashMetadata_t.zero : ServerCrashMetadata_t :=
  { szVersion := "", szMap := "", szGameMode := "", szTimestamp := "", szCrashID := "",
    nMemoryUsageMB := 0, nUptime := 0, nPlayerCount := 0, nTickRate := 0,
    szOS := "", szSignal := "", bDedicated := false }

/-- What a signal disposition points at: the default action, ignore, the
subsystem's own `CServerCrashHandler::SignalHandler`, or a handler that some
other component (an outer crash reporter) installed. -/
inductive HandlerFn where
  | SIG_DFL
  | SIG_IGN
  | SignalHandler
  | other (id : Nat)
  deriving DecidableEq, Repr

/-- The parts of `struct sigaction` the subsystem sets or copies: the handler
and the flags (the mask it installs is empty). -/
structure SigAction where
  handler : HandlerFn
  sa_flags : Nat
  deriving DecidableEq, Repr

/-- A zero-filled `struct sigaction`: default action, no flags. -/
def SigAction.zero : SigAction := { handler := HandlerFn.SIG_DFL, sa_flags := 0 }

/-- One `struct sigaction` per intercepted signal. Used both for the statics
`s_OldSIGSEGV` ... `s_OldSIGBUS` and for the dispositions the kernel holds
for these five signals. -/
structure SigTable where
  segv : SigAction
  abrt : SigAction
  fpe : SigAction
  ill : SigAction
  bus : SigAction
  deriving DecidableEq, Repr

def SigTable.zero : SigTable :=
  { segv := SigAction.zero, abrt := SigAction.zero, fpe := SigAction.zero,
    ill := SigAction.zero, bus := SigAction.zero }

/-- The entry of a table for signal `n`, if `n` is one of the five. -/
def SigTable.get (t : SigTable) (n : Int) : Option SigAction :=
  if n = SIGSEGV then some t.segv
  else if n = SIGABRT then some t.abrt
  else if n = SIGFPE then some t.fpe
  else if n = SIGILL then some t.ill
  else if n = SIGBUS then some t.bus
  else none

/-- The table with the entry of signal `n` replaced (unchanged when `n` is not
one of the five). -/
def SigTable.set (t : SigTable) (n : Int) (a : SigAction) : SigTable :=
  if n = SIGSEGV then { t with segv := a }
  else if n = SIGABRT then { t with abrt := a }
  else if n = SIGFPE then { t with fpe := a }
  else if n = SIGILL then { t with ill := a }
  else if n = SIGBUS then { t with bus := a }
  else t

/-- How the process stands: still running, or ended by `_exit` with the given
argument, or left to a disposition outside the subsystem after delivery of a
signal. -/
inductive ProcStatus where
  | running
  | exited (code : Int)
  | signalled (sig : Int)
  deriving DecidableEq, Repr

/-- Calls made by the handling path, recorded in the order they happen. -/
inductive Call where
  | CollectMetadata
  | WriteCrashReport
  | mkdir (path : String)
  | fopen (path : String) (ok : Bool)
  | sigaction (sig : Int) (act : SigAction)
  | raise (sig : Int)
  | _exit (code : Int)
  deriving DecidableEq, Repr

/-- A file: its path and the texts written to it, one item per `fprintf`. -/
structure File where
  path : String
  chunks : List String
  deriving DecidableEq, Repr

/-- The state of the process as far as the crash handler is concerned. -/
structure State where
  /-- static `CServerCrashHandler::s_Metadata` -/
  s_Metadata : ServerCrashMetadata_t
  /-- static `CServerCrashHandler::s_bEnabled` -/
  s_bEnabled : Bool
  /-- static `CServerCrashHandler::s_bInitialized` -/
  s_bInitialized : Bool
  /-- statics `s_OldSIGSEGV`, `s_OldSIGABRT`, `s_OldSIGFPE`, `s_OldSIGILL`, `s_OldSIGBUS` -/
  s_Old : SigTable
  /-- static `s_bInCrashHandler` -/
  s_bInCrashHandler : Int
  /-- integer value of the console variable `sv_crashreporting_enabled` -/
  sv_crashreporting_enabled : Int
  /-- dispositions the kernel holds for the five signals -/
  sigTable : SigTable
  /-- files written so far, most recent first -/
  files : List File
  /-- texts written to the standard error stream, oldest first -/
  stderr : List String
  /-- texts printed by `Msg`, oldest first -/
  console : List String
  /-- calls made so far, oldest first -/
  calls : List Call
  status : ProcStatus
  deriving DecidableEq, Repr

/-- The process right after start: statics zero-initialised, the console
variable at its default "1", and the given signal dispositions in place. -/
def State.boot (dispositions : SigTable) : State :=
  { s_Metadata := ServerCrashMetadata_t.zero, s_bEnabled := false, s_bInitialized := false,
    s_Old := SigTable.zero, s_bInCrashHandler := 0, sv_crashreporting_enabled := 1,
    sigTable := dispositions, files := [], stderr := [], console := [], calls := [],
    status := ProcStatus.running }

/-- The fields of `struct utsname` the subsystem reads. -/
structure Utsname where
  sysname : String
  release : String
  machine : String
  deriving DecidableEq, Repr

/-- The fields of `struct tm` the subsystem reads. -/
structure Tm where
  tm_year : Int
  tm_mon : Int
  tm_mday : Int
  tm_hour : Int
  tm_min : Int
  tm_sec : Int
  deriving DecidableEq, Repr

/-- The struct `Dl_info` filled by `dladdr`; a null `dli_fname` or `dli_sname`
is `none`. -/
structure Dl_info where
  dli_fname : Option String
  dli_fbase : Nat
  dli_sname : Option String
  dli_saddr : Nat
  deriving DecidableEq, Repr

/-- Results of the platform queries made during one operation. -/
structure Env where
  /-- result of `uname`, `none` when it fails -/
  uname : Option Utsname
  /-- value returned by `time` -/
  time : Int
  /-- conversion done by `gmtime_r` -/
  gmtime : Int → Tm
  /-- conversion done by `localtime` -/
  localtime : Int → Tm
  /-- value returned by `rand` -/
  rand : Nat
  /-- value of `(int)Plat_FloatTime()` -/
  uptime : Int
  /-- field `ru_maxrss` filled by `getrusage`, `none` when it fails -/
  maxrss : Option Nat
  /-- whether `fopen( path, "w" )` succeeds -/
  canOpen : String → Bool
  /-- return address inside `WriteCrashReport`, the caller of `backtrace` -/
  raWriteCrashReport : Nat
  /-- return address inside `SignalHandler`, the caller of `WriteCrashReport` -/
  raSignalHandler : Nat
  /-- frames the platform puts between the handler and the interrupted code -/
  sigFrames : List Nat
  /-- stack of the interrupted thread, the faulting frame first -/
  faultStack : List Nat
  /-- strings of `backtrace_symbols` by address, `none` when it returns NULL -/
  backtrace_symbols : Option (Nat → String)
  /-- result of `dladdr` by address, `none` when it returns 0 -/
  dladdr : Nat → Option Dl_info
  /-- result of `abi::__cxa_demangle`, `none` unless status 0 and non-null -/
  demangle : String → Option String

/-! ## Operations -/

/-- Console output of `Msg`. -/
def Msg (text : String) (s : State) : State :=
  { s with console := s.console ++ [text] }

/-- The system call `sigaction( sig, &act, NULL )`: replace the disposition. -/
def sigaction (sig : Int) (act : SigAction) (s : State) : State :=
  { s with sigTable := s.sigTable.set sig act,
           calls := s.calls ++ [Call.sigaction sig act] }

/-- The library call `backtrace( buffer, size )`: the innermost `size` return
addresses of the current call stack. -/
def backtrace (stack : List Nat) (size : Nat) : List Nat := stack.take size

def GetSignalName (nSignal : Int) : String :=
  if nSignal = SIGSEGV then "SIGSEGV (Segmentation Fault)"
  else if nSignal = SIGABRT then "SIGABRT (Abort)"
  else if nSignal = SIGFPE then "SIGFPE (Floating Point Exception)"
  else if nSignal = SIGILL then "SIGILL (Illegal Instruction)"
  else if nSignal = SIGBUS then "SIGBUS (Bus Error)"
  else "Unknown Signal"

def DemangleSymbol (env : Env) (pszMangledName : String) (nBufferSize : Nat) : String :=
  match env.demangle pszMangledName with
  | some pszDemangled => V_strncpy pszDemangled nBufferSize
  | none => V_strncpy pszMangledName nBufferSize

namespace CServerCrashHandler

def CollectSystemInfo (env : Env) (s : State) : State :=
  match env.uname with
  | some unameData =>
    { s with s_Metadata := { s.s_Metadata with
        szOS := V_snprintf 128
          (unameData.sysname ++ " " ++ unameData.release ++ " " ++ unameData.machine) } }
  | none =>
    { s with s_Metadata := { s.s_Metadata with szOS := V_strncpy "Linux (unknown)" 128 } }

def InstallSignalHandlers (s : State) : State :=
  let sa : SigAction := { handler := HandlerFn.SignalHandler, sa_flags := SA_SIGINFO ||| SA_RESETHAND }
  -- sigaction( SIGxxx, &sa, &s_OldSIGxxx ): the previous disposition is stored, then replaced
  let s := sigaction SIGSEGV sa { s with s_Old := { s.s_Old with segv := s.sigTable.segv } }
  let s := sigaction SIGABRT sa { s with s_Old := { s.s_Old with abrt := s.sigTable.abrt } }
  let s := sigaction SIGFPE sa { s with s_Old := { s.s_Old with fpe := s.sigTable.fpe } }
  let s := sigaction SIGILL sa { s with s_Old := { s.s_Old with ill := s.sigTable.ill } }
  let s := sigaction SIGBUS sa { s with s_Old := { s.s_Old with bus := s.sigTable.bus } }
  Msg "[ServerCrashHandler] Signal handlers installed for SIGSEGV, SIGABRT, SIGFPE, SIGILL, SIGBUS\n" s

def Init (env : Env) (s : State) : State :=
  if s.s_bInitialized then
    Msg "[ServerCrashHandler] Already initialized.\n" s
  else
    let s := Msg "[ServerCrashHandler] Initializing server crash reporting system...\n" s
    let s := { s with s_bInitialized := true }
    let s := { s with s_bEnabled := decide (s.sv_crashreporting_enabled ≠ 0) }
    let s := { s with s_Metadata := ServerCrashMetadata_t.zero }
    let s := { s with s_Metadata := { s.s_Metadata with bDedicated := true } }
    let s := CollectSystemInfo env s
    let s := { s with s_Metadata := { s.s_Metadata with
                szVersion := V_snprintf 64 "Custom Fortress 2 Server" } }
    let s := if s.s_bEnabled then InstallSignalHandlers s else s
    Msg ("[ServerCrashHandler] Initialized. Crash logs will be written to " ++ CRASH_LOG_DIR ++ "/\n") s

def Shutdown (s : State) : State :=
  { s with s_bInitialized := false, s_bEnabled := false }

def SetEnabled (bEnabled : Bool) (s : State) : State :=
  { s with s_bEnabled := bEnabled,
           sv_crashreporting_enabled := if bEnabled then 1 else 0 }

def IsEnabled (s : State) : Bool := s.s_bEnabled && s.s_bInitialized

def SetCurrentMap (pszMapName : Option String) (s : State) : State :=
  match pszMapName with
  | some name => { s with s_Metadata := { s.s_Metadata with szMap := V_strncpy name 128 } }
  | none => s

def SetGameMode (pszGameMode : Option String) (s : State) : State :=
  match pszGameMode with
  | some mode => { s with s_Metadata := { s.s_Metadata with szGameMode := V_strncpy mode 64 } }
  | none => s

def SetPlayerCount (nPlayers : Int) (s : State) : State :=
  { s with s_Metadata := { s.s_Metadata with nPlayerCount := nPlayers } }

def GenerateCrashID (env : Env) (s : State) : State :=
  { s with s_Metadata := { s.s_Metadata with
      szCrashID := V_snprintf 40
        ("srv_" ++ fmt_0x 8 (env.time % 2 ^ 32).toNat ++ "_" ++ fmt_0x 4 (env.rand % 0xFFFF)) } }

/-- Text produced by `strftime` with the format `%Y-%m-%d %H:%M:%S UTC`. For
calendar fields in their normal ranges it is at most 30 characters long, far
below the capacity 64 of `szTimestamp`. -/
def strftimeUTC (tm : Tm) : String :=
  fmt_d (tm.tm_year + 1900) ++ "-" ++ fmt_0d 2 (tm.tm_mon + 1) ++ "-" ++ fmt_0d 2 tm.tm_mday
    ++ " " ++ fmt_0d 2 tm.tm_hour ++ ":" ++ fmt_0d 2 tm.tm_min ++ ":" ++ fmt_0d 2 tm.tm_sec
    ++ " UTC"

def CollectMetadata (env : Env) (s : State) : State :=
  let s := { s with calls := s.calls ++ [Call.CollectMetadata] }
  let s := GenerateCrashID env s
  let timeinfo := env.gmtime env.time
  let s := { s with s_Metadata := { s.s_Metadata with
              szTimestamp := truncate 63 (strftimeUTC timeinfo) } }
  let s := { s with s_Metadata := { s.s_Metadata with nUptime := env.uptime } }
  match env.maxrss with
  | some ru_maxrss =>
    { s with s_Metadata := { s.s_Metadata with
        nMemoryUsageMB := toInt32 ((ru_maxrss / 1024 : Nat) : Int) } }
  | none => s

/-- The row of 61 characters `=` that frames the banners of the report. -/
def bannerRule : String := ⟨List.replicate 61 '='⟩

/-- The row of 61 characters `-` that frames the stack trace. -/
def dashRule : String := ⟨List.replicate 61 '-'⟩

/-- Banner written at the top of the report. -/
def reportHeader : List String :=
  [ bannerRule ++ "\n",
    "Custom Fortress 2 - Linux Dedicated Server Crash Report\n",
    bannerRule ++ "\n\n" ]

/-- Metadata block of the report, one item per `fprintf`. -/
def reportMetadata (m : ServerCrashMetadata_t) : List String :=
  [ "Crash ID: " ++ m.szCrashID ++ "\n",
    "Version: " ++ m.szVersion ++ "\n",
    "Timestamp: " ++ m.szTimestamp ++ "\n",
    "Map: " ++ (if m.szMap ≠ "" then m.szMap else "(none)") ++ "\n",
    "Game Mode: " ++ (if m.szGameMode ≠ "" then m.szGameMode else "(unknown)") ++ "\n",
    "Players: " ++ fmt_d m.nPlayerCount ++ "\n",
    "Uptime: " ++ fmt_d m.nUptime ++ " seconds\n",
    "Memory: " ++ fmt_d m.nMemoryUsageMB ++ " MB\n",
    "OS: " ++ m.szOS ++ "\n\n" ]

/-- Signal and fault address lines of the report. -/
def reportCrashInfo (pszSignal : String) (pFaultAddress : Nat) : List String :=
  [ "Signal: " ++ pszSignal ++ "\n",
    "Fault Address: " ++ fmt_p pFaultAddress ++ "\n\n" ]

/-- Body of the loop over the frames, for frame `i` at address `addr`: what
the two branches on `dladdr( ... ) && dlInfo.dli_sname` print. -/
def frameEntry (env : Env) (ppSymbols : Nat → String) (i : Nat) (addr : Nat) : List String :=
  match env.dladdr addr with
  | some dlInfo =>
    match dlInfo.dli_sname with
    | some sname =>
      [ "#" ++ fmt_ld2 i ++ " " ++ fmt_p addr ++ " in " ++ DemangleSymbol env sname 512
          ++ "+0x" ++ fmt_tx ((addr : Int) - (dlInfo.dli_saddr : Int)) ++ "\n",
        "    at " ++ (match dlInfo.dli_fname with | some f => f | none => "unknown") ++ "\n" ]
    | none => [ "#" ++ fmt_ld2 i ++ " " ++ ppSymbols addr ++ "\n" ]
  | none => [ "#" ++ fmt_ld2 i ++ " " ++ ppSymbols addr ++ "\n" ]

/-- The loop `for ( int i = 0; i < nFrameCount; i++ )` of the stack trace,
from index `i` on, over the frames that remain. -/
def frameLoop (env : Env) (ppSymbols : Nat → String) (i : Nat) : List Nat → List String
  | [] => []
  | addr :: rest => frameEntry env ppSymbols i addr ++ frameLoop env ppSymbols (i + 1) rest

/-- Stack trace section: its two heading lines, then the frame entries, or
the single failure line when `backtrace_symbols` returns NULL. -/
def reportStackTrace (env : Env) (pStackFrames : List Nat) : List String :=
  [ "Stack Trace (" ++ fmt_d pStackFrames.length ++ " frames):\n",
    dashRule ++ "\n" ]
  ++ (match env.backtrace_symbols with
      | some ppSymbols => frameLoop env ppSymbols 0 pStackFrames
      | none => [ "Failed to get symbol names\n" ])

/-- The second loop over the frames: one `addr2line` command for each frame
whose `dladdr` succeeds with a module path. -/
def addr2lineLoop (env : Env) : List Nat → List String
  | [] => []
  | addr :: rest =>
    (match env.dladdr addr with
     | some dlInfo =>
       match dlInfo.dli_fname with
       | some fname =>
         [ "addr2line -e " ++ fname ++ " -f -C 0x"
             ++ fmt_tx ((addr : Int) - (dlInfo.dli_fbase : Int)) ++ "\n" ]
       | none => []
     | none => [])
    ++ addr2lineLoop env rest

/-- Trailer of the report: the `addr2line` commands and the closing banner. -/
def reportTrailer (env : Env) (pStackFrames : List Nat) : List String :=
  [ "\n" ++ dashRule ++ "\n",
    "\nTo get source file and line numbers, run these commands:\n",
    "(Requires debug symbols - build with -g flag)\n\n" ]
  ++ addr2lineLoop env pStackFrames
  ++ [ "\n" ++ bannerRule ++ "\n",
       "End of crash report\n",
       bannerRule ++ "\n" ]

/-- Everything `WriteCrashReport` prints to the opened file, in order. -/
def reportText (env : Env) (m : ServerCrashMetadata_t) (pszSignal : String)
    (pFaultAddress : Nat) (pStackFrames : List Nat) : List String :=
  reportHeader ++ reportMetadata m ++ reportCrashInfo pszSignal pFaultAddress
    ++ reportStackTrace env pStackFrames ++ reportTrailer env pStackFrames

/-- Primary file name built by the first `V_snprintf` of `WriteCrashReport`. -/
def primaryPath (pTime : Tm) : String :=
  V_snprintf 256
    (CRASH_LOG_DIR ++ "/crash_" ++ fmt_0d 4 (pTime.tm_year + 1900) ++ fmt_0d 2 (pTime.tm_mon + 1)
      ++ fmt_0d 2 pTime.tm_mday ++ "_" ++ fmt_0d 2 pTime.tm_hour ++ fmt_0d 2 pTime.tm_min
      ++ fmt_0d 2 pTime.tm_sec ++ ".log")

/-- Fallback file name built by the second `V_snprintf` of `WriteCrashReport`. -/
def fallbackPath (pTime : Tm) : String :=
  V_snprintf 256
    ("crash_" ++ fmt_0d 4 (pTime.tm_year + 1900) ++ fmt_0d 2 (pTime.tm_mon + 1)
      ++ fmt_0d 2 pTime.tm_mday ++ "_" ++ fmt_0d 2 pTime.tm_hour ++ fmt_0d 2 pTime.tm_min
      ++ fmt_0d 2 pTime.tm_sec ++ ".log")

/-- The part of `WriteCrashReport` after a successful `fopen`: the report goes
to the file `szFilename`, two lines go to the standard error stream, and the
result is `true`. -/
def writeOpened (env : Env) (callerStack : List Nat) (pszSignal : String) (pFaultAddress : Nat)
    (szFilename : String) (s : State) : Bool × State :=
  let pStackFrames := backtrace (env.raWriteCrashReport :: callerStack) MAX_STACK_FRAMES
  let report := reportText env s.s_Metadata pszSignal pFaultAddress pStackFrames
  (true,
   { s with
     files := { path := szFilename, chunks := report } :: s.files,
     stderr := s.stderr ++
       [ "\n*** SERVER CRASH: " ++ pszSignal ++ " at " ++ fmt_p pFaultAddress ++ " ***\n",
         "*** Crash log written to: " ++ szFilename ++ " ***\n\n" ] })

/-- The member `WriteCrashReport`. The argument `callerStack` is the call
stack of the caller, innermost return address first; `backtrace` sees the
frame of `WriteCrashReport` itself on top of it. -/
def WriteCrashReport (env : Env) (callerStack : List Nat) (pszSignal : String)
    (pFaultAddress : Nat) (s : State) : Bool × State :=
  let s := { s with calls := s.calls ++ [Call.WriteCrashReport, Call.mkdir CRASH_LOG_DIR] }
  let pTime := env.localtime env.time
  let szFilename := primaryPath pTime
  if env.canOpen szFilename then
    writeOpened env callerStack pszSignal pFaultAddress szFilename
      { s with calls := s.calls ++ [Call.fopen szFilename true] }
  else
    let s := { s with calls := s.calls ++ [Call.fopen szFilename false] }
    -- Try current directory as fallback
    let szFilename := fallbackPath pTime
    if env.canOpen szFilename then
      writeOpened env callerStack pszSignal pFaultAddress szFilename
        { s with calls := s.calls ++ [Call.fopen szFilename true] }
    else
      (false, { s with calls := s.calls ++ [Call.fopen szFilename false] })

/-- The library call `raise( sig )`. -/
def raise (sig : Int) (s : State) : State :=
  { s with calls := s.calls ++ [Call.raise sig] }

/-- The member `SignalHandler`. The argument `pInfo` is `none` for a null
pointer and otherwise holds `pInfo->si_addr`. -/
def SignalHandler (env : Env) (nSignal : Int) (pInfo : Option Nat) (s : State) : State :=
  -- Prevent recursive crashes
  if s.s_bInCrashHandler ≠ 0 then
    -- Already in crash handler, just exit
    { s with calls := s.calls ++ [Call._exit (128 + nSignal)],
             status := ProcStatus.exited (128 + nSignal) }
  else
    let s := { s with s_bInCrashHandler := 1 }
    let pFaultAddress : Nat := pInfo.getD 0
    let pszSignal := GetSignalName nSignal
    -- Store signal info
    let s := { s with s_Metadata := { s.s_Metadata with szSignal := V_strncpy pszSignal 64 } }
    -- Collect metadata
    let s := CollectMetadata env s
    -- Write crash report
    let s := (WriteCrashReport env (env.raSignalHandler :: (env.sigFrames ++ env.faultStack))
                pszSignal pFaultAddress s).2
    -- Restore original handler and re-raise signal
    let s := match s.s_Old.get nSignal with
             | some pOldHandler => sigaction nSignal pOldHandler s
             | none => s
    raise nSignal s

end CServerCrashHandler

open CServerCrashHandler

/-- Delivery of signal `n` by the kernel. When the disposition is the
subsystem's handler, that handler runs, after the disposition has been reset
to the default if `SA_RESETHAND` is set; any other disposition leaves the
subsystem out. -/
def deliver (env : Env) (n : Int) (pInfo : Option Nat) (s : State) : State :=
  match s.sigTable.get n with
  | some act =>
    if act.handler = HandlerFn.SignalHandler then
      CServerCrashHandler.SignalHandler env n pInfo
        (if act.sa_flags &&& SA_RESETHAND ≠ 0
         then { s with sigTable := s.sigTable.set n SigAction.zero } else s)
    else { s with status := ProcStatus.signalled n }
  | none => { s with status := ProcStatus.signalled n }

/-- The report most recently written, if any. -/
def lastReport (s : State) : Option (List String) :=
  match s.files with
  | f :: _ => some f.chunks
  | [] => none

/-- One invocation of the signal handler: the platform results it sees, the
signal number, and the fault address if a `siginfo_t` is passed. -/
structure Invocation where
  env : Env
  nSignal : Int
  pInfo : Option Nat

/-- Run the handler once for each invocation, in order. -/
def handleAll (invs : List Invocation) (s : State) : State :=
  invs.foldl (fun st inv => CServerCrashHandler.SignalHandler inv.env inv.nSignal inv.pInfo st) s

/-- The moment 2023-11-14 22:13:20 UTC as `struct tm`. -/
def sampleTm : Tm :=
  { tm_year := 123, tm_mon := 10, tm_mday := 14, tm_hour := 22, tm_min := 13, tm_sec := 20 }

/-- The strings `backtrace_symbols` gives in `sampleEnv`. -/
def sampleSymbols : Nat → String := fun a => "./srcds_linux() [" ++ fmt_p a ++ "]"

/-- A crash on a Linux server with a writable crash directory: a stack of two
frames was interrupted, no symbol is known to `dladdr`. -/
def sampleEnv : Env :=
  { uname := some { sysname := "Linux", release := "5.15.0", machine := "x86_64" },
    time := 1700000000,
    gmtime := fun _ => sampleTm,
    localtime := fun _ => sampleTm,
    rand := 12345,
    uptime := 3600,
    maxrss := some 204800,
    canOpen := fun _ => true,
    raWriteCrashReport := 0x401200,
    raSignalHandler := 0x401500,
    sigFrames := [0x7f0000042520],
    faultStack := [0x402000, 0x403000],
    backtrace_symbols := some sampleSymbols,
    dladdr := fun _ => none,
    demangle := fun _ => none }

/-- The same crash with no place to write to: every `fopen` fails. -/
def sampleEnvNoDisk : Env := { sampleEnv with canOpen := fun _ => false }

/-- The same crash with `backtrace_symbols` returning NULL. -/
def sampleEnvNoSymbols : Env := { sampleEnv with backtrace_symbols := none }

/-- A freshly started server after `Init`, all five signals at their default
disposition before. -/
def sampleRunning : State := CServerCrashHandler.Init sampleEnv (State.boot SigTable.zero)

/-- The same server after its handler has run once for a segmentation fault
at address 0. -/
def sampleCrashed : State :=
  CServerCrashHandler.SignalHandler sampleEnv SIGSEGV (some 0) sampleRunning

/-- The five signals `InstallSignalHandlers` intercepts. -/
def interceptedSignals : List Int := [SIGSEGV, SIGABRT, SIGFPE, SIGILL, SIGBUS]

/-- The `_exit` call an invocation makes when the guard is already set. -/
def exitCall (inv : Invocation) : Call := Call._exit (128 + inv.nSignal)

/-- Number of times `WriteCrashReport` has been entered. -/
def fullReports (s : State) : Nat := s.calls.count Call.WriteCrashReport

/-- The calls `WriteCrashReport` makes after entry, by outcome of the two
`fopen` attempts. -/
def openCalls (env : Env) : List Call :=
  if env.canOpen (primaryPath (env.localtime env.time)) then
    [Call.fopen (primaryPath (env.localtime env.time)) true]
  else
    [Call.fopen (primaryPath (env.localtime env.time)) false,
     Call.fopen (fallbackPath (env.localtime env.time))
       (env.canOpen (fallbackPath (env.localtime env.time)))]

/-- The last two steps of the handler: put back the saved disposition of the
signal, if it is one of the five. -/
def restoreOld (nSignal : Int) (s : State) : State :=
  match s.s_Old.get nSignal with
  | some pOldHandler => sigaction nSignal pOldHandler s
  | none => s

/-- The state in which `WriteCrashReport` is entered on the full path. -/
def collected (env : Env) (nSignal : Int) (s : State) : State :=
  CollectMetadata env
    { s with s_bInCrashHandler := 1,
             s_Metadata := { s.s_Metadata with szSignal := V_strncpy (GetSignalName nSignal) 64 } }

/-- A call of one of the three setters of the metadata store. -/
inductive Push where
  | SetCurrentMap (pszMapName : Option String)
  | SetGameMode (pszGameMode : Option String)
  | SetPlayerCount (nPlayers : Int)

/-- Perform one setter call. -/
def Push.apply : Push → State → State
  | Push.SetCurrentMap pszMapName, s => CServerCrashHandler.SetCurrentMap pszMapName s
  | Push.SetGameMode pszGameMode, s => CServerCrashHandler.SetGameMode pszGameMode s
  | Push.SetPlayerCount nPlayers, s => CServerCrashHandler.SetPlayerCount nPlayers s

/-- Perform a sequence of setter calls, the head of the list first. -/
def applyPushes (ops : List Push) (s : State) : State :=
  ops.foldl (fun st op => op.apply st) s

/-- The text a call hands to `SetCurrentMap` through a non-null pointer. -/
def Push.mapArg : Push → Option String
  | Push.SetCurrentMap (some name) => some name
  | _ => none

/-- The text a call hands to `SetGameMode` through a non-null pointer. -/
def Push.modeArg : Push → Option String
  | Push.SetGameMode (some mode) => some mode
  | _ => none

/-- The number a call hands to `SetPlayerCount`. -/
def Push.playersArg : Push → Option Int
  | Push.SetPlayerCount n => some n
  | _ => none

/-- The text passed to the most recent `SetCurrentMap` call that was given a
non-null pointer, if there is one: later calls are at the end of the list. -/
def lastMapPushed : List Push → Option String
  | [] => none
  | op :: later => (lastMapPushed later).orElse (fun _ => op.mapArg)

/-- The text passed to the most recent `SetGameMode` call that was given a
non-null pointer, if there is one. -/
def lastModePushed : List Push → Option String
  | [] => none
  | op :: later => (lastModePushed later).orElse (fun _ => op.modeArg)

/-- The number passed to the most recent `SetPlayerCount` call, if there is
one. -/
def lastPlayersPushed : List Push → Option Int
  | [] => none
  | op :: later => (lastPlayersPushed later).orElse (fun _ => op.playersArg)

/-- What a text field of the given capacity shows in the report after the
pushes: the most recent text cut to `capacity - 1` characters, or the
placeholder when nothing was pushed or the text is empty. -/
def shownText (pushed : Option String) (capacity : Nat) (placeholder : String) : String :=
  match pushed with
  | some text => if truncate (capacity - 1) text ≠ "" then truncate (capacity - 1) text
                 else placeholder
  | none => placeholder

/-- Item number `k` (from 0, one item per `fprintf`) of the report most
recently written, if there is one. -/
def reportItem (k : Nat) (s : State) : Option String :=
  match lastReport s with
  | some report => report[k]?
  | none => none

/-- A map name of 128 characters, one more than `szMap` can hold. -/
def longMapName : String := ⟨List.replicate 128 'a'⟩

/-- Whether an item of the report is a numbered frame entry: these are the
items that start with the character `#`. -/
def isFrameEntry (item : String) : Bool := item.data.head? = some '#'

/-- The numbered frame entries of a report, in order. -/
def frameEntries (report : List String) : List String := report.filter isFrameEntry

/-- The numbered line printed for frame `i` at address `addr`: the first item
of its frame entry. -/
def frameEntryLine (env : Env) (ppSymbols : Nat → String) (i : Nat) (addr : Nat) : String :=
  (frameEntry env ppSymbols i addr).headD ""

/-- The stack `backtrace` captures when `WriteCrashReport` runs under
`SignalHandler`: the frame of `WriteCrashReport`, the frame of
`SignalHandler`, the platform's signal-delivery frames and the interrupted
stack, cut to `MAX_STACK_FRAMES`. -/
def capturedInHandler (env : Env) : List Nat :=
  backtrace (env.raWriteCrashReport :: env.raSignalHandler
    :: (env.sigFrames ++ env.faultStack)) MAX_STACK_FRAMES

/-- A freshly started server whose console variable was set to 0 before
`Init` ran. -/
def sampleDisabledAtInit : State :=
  CServerCrashHandler.Init sampleEnv
    { State.boot SigTable.zero with sv_crashreporting_enabled := 0 }

/-- The action `InstallSignalHandlers` installs for each of the five signals. -/
def crashAction : SigAction :=
  { handler := HandlerFn.SignalHandler, sa_flags := SA_SIGINFO ||| SA_RESETHAND }

/-- The member `TestCrash` up to the store `*pNull = 42`; the segmentation
fault which that store raises is delivered by `deliver`. -/
def CServerCrashHandler.TestCrash (env : Env) (s : State) : State :=
  let s := Msg "[ServerCrashHandler] Triggering test crash...\n" s
  -- Collect metadata before crash
  let s := CollectMetadata env s
  let s := Msg ("[ServerCrashHandler] Crash ID: " ++ s.s_Metadata.szCrashID ++ "\n") s
  let s := Msg ("[ServerCrashHandler] Map: " ++ s.s_Metadata.szMap ++ "\n") s
  Msg "[ServerCrashHandler] Crashing now...\n" s

/-- The console command `sv_crash_test`: `TestCrash`, then the delivery of the
SIGSEGV raised by its store through the null pointer (fault address 0). The
platform answers `envCmd` during `TestCrash` and `envFault` during the
handling of the fault. -/
def CC_ServerCrashTest (envCmd envFault : Env) (s : State) : State :=
  deliver envFault SIGSEGV (some 0) (CServerCrashHandler.TestCrash envCmd s)

/-- The same crash as `sampleEnv` with `getrusage` failing. -/
def sampleEnvNoRusage : Env := { sampleEnv with maxrss := none }

/-- An answer of `uname` whose fields use the 64 characters a field of
`struct utsname` can hold on Linux. -/
def longUtsname : Utsname :=
  { sysname := ⟨List.replicate 64 'a'⟩, release := ⟨List.replicate 64 'b'⟩, machine := "x86_64" }

/-- Whether an item of the report starts with the given text. -/
def startsWith (start : String) (item : String) : Bool := start.data.isPrefixOf item.data

/-- The `addr2line` command lines of a report, in order: the items that start
with `addr2line -e `. -/
def addr2lines (report : List String) : List String :=
  report.filter (startsWith "addr2line -e ")

/-- The command line the trailer should hold for the frame at `addr`: one
built from the module path and the offset of the address from the load base
of the module when `dladdr` resolves a module path, none otherwise. -/
def addr2lineFor (env : Env) (addr : Nat) : Option String :=
  match env.dladdr addr with
  | some dlInfo =>
    match dlInfo.dli_fname with
    | some fname =>
      some ("addr2line -e " ++ fname ++ " -f -C 0x"
        ++ fmt_tx ((addr : Int) - (dlInfo.dli_fbase : Int)) ++ "\n")
    | none => none
  | none => none

/-- What `dladdr` answers in `sampleEnvModules`: the frames of the interrupted
code lie in the server binary loaded at 0x400000, of which one has a symbol;
the signal-delivery frame lies in libc, resolved without a symbol; the
handler's own frames are not resolved. -/
def sampleDladdr (addr : Nat) : Option Dl_info :=
  if addr = 0x402000 then
    some { dli_fname := some "./srcds_linux", dli_fbase := 0x400000,
           dli_sname := some "_ZN7CServer4TickEv", dli_saddr := 0x401ff0 }
  else if addr = 0x403000 then
    some { dli_fname := some "./srcds_linux", dli_fbase := 0x400000,
           dli_sname := none, dli_saddr := 0 }
  else if addr = 0x7f0000042520 then
    some { dli_fname := some "/lib/libc.so.6", dli_fbase := 0x7f0000000000,
           dli_sname := none, dli_saddr := 0 }
  else none

/-- The crash of `sampleEnv` with some frames resolved by `dladdr`. -/
def sampleEnvModules : Env :=
  { sampleEnv with
    dladdr := sampleDladdr,
    demangle := fun name =>
      if name = "_ZN7CServer4TickEv" then some "CServer::Tick()" else none }

/-- The layout a report should have, section after section: the header
banner; the metadata lines Crash ID, Version, Timestamp, Map, Game Mode,
Players, Uptime, Memory, OS; the Signal line and the Fault Address line; the
stack trace with its heading and the given body; the trailer with its heading,
the given symbol-lookup commands and the end-of-report banner. -/
def expectedLayout (m : ServerCrashMetadata_t) (pszSignal : String) (pFaultAddress : Nat)
    (nFrameCount : Nat) (stackBody commands : List String) : List String :=
  [ bannerRule ++ "\n",
    "Custom Fortress 2 - Linux Dedicated Server Crash Report\n",
    bannerRule ++ "\n\n",
    "Crash ID: " ++ m.szCrashID ++ "\n",
    "Version: " ++ m.szVersion ++ "\n",
    "Timestamp: " ++ m.szTimestamp ++ "\n",
    "Map: " ++ (if m.szMap ≠ "" then m.szMap else "(none)") ++ "\n",
    "Game Mode: " ++ (if m.szGameMode ≠ "" then m.szGameMode else "(unknown)") ++ "\n",
    "Players: " ++ fmt_d m.nPlayerCount ++ "\n",
    "Uptime: " ++ fmt_d m.nUptime ++ " seconds\n",
    "Memory: " ++ fmt_d m.nMemoryUsageMB ++ " MB\n",
    "OS: " ++ m.szOS ++ "\n\n",
    "Signal: " ++ pszSignal ++ "\n",
    "Fault Address: " ++ fmt_p pFaultAddress ++ "\n\n",
    "Stack Trace (" ++ fmt_d (nFrameCount : Int) ++ " frames):\n",
    dashRule ++ "\n" ]
  ++ stackBody
  ++ [ "\n" ++ dashRule ++ "\n",
       "\nTo get source file and line numbers, run these commands:\n",
       "(Requires debug symbols - build with -g flag)\n\n" ]
  ++ commands
  ++ [ "\n" ++ bannerRule ++ "\n",
       "End of crash report\n",
       bannerRule ++ "\n" ]

/-- The number a digit character stands for: `0`..`9` for the decimal digits,
10..15 for the lowercase letters `a`..`f`. -/
def digitValue (c : Char) : Nat := if c.toNat < 58 then c.toNat - 48 else c.toNat - 87

/-- The number a row of digits denotes in base `b`, most significant digit
first. -/
def valueOfDigits (b : Nat) (cs : List Char) : Nat :=
  cs.foldl (fun acc c => acc * b + digitValue c) 0

/-- The lowercase hexadecimal digits. -/
def hexChars : List Char := "0123456789abcdef".data

/-- The decimal digits. -/
def decChars : List Char := "0123456789".data

/-- The calendar fields of the time `t`, in seconds since 1970-01-01 00:00:00
UTC, in the UTC time zone (proleptic Gregorian calendar, days of 86400
seconds): what `gmtime` computes. -/
def utcCalendar (t : Int) : Tm :=
  let days := t / 86400
  let secs := t % 86400
  let z := days + 719468
  let era := z / 146097
  let doe := z - era * 146097
  let yoe := (doe - doe / 1460 + doe / 36524 - doe / 146096) / 365
  let doy := doe - (365 * yoe + yoe / 4 - yoe / 100)
  let mp := (5 * doy + 2) / 153
  let d := doy - (153 * mp + 2) / 5 + 1
  let m := if mp < 10 then mp + 3 else mp - 9
  let y := yoe + era * 400 + (if m ≤ 2 then 1 else 0)
  { tm_year := y - 1900, tm_mon := m - 1, tm_mday := d,
    tm_hour := secs / 3600, tm_min := secs % 3600 / 60, tm_sec := secs % 60 }

/-- Calendar fields in the ranges `localtime` and `gmtime` produce for the
years 0 to 9999. -/
abbrev calendarInRange (tm : Tm) : Prop :=
  0 ≤ tm.tm_year + 1900 ∧ tm.tm_year + 1900 ≤ 9999
  ∧ 0 ≤ tm.tm_mon ∧ tm.tm_mon ≤ 11
  ∧ 1 ≤ tm.tm_mday ∧ tm.tm_mday ≤ 31
  ∧ 0 ≤ tm.tm_hour ∧ tm.tm_hour ≤ 23
  ∧ 0 ≤ tm.tm_min ∧ tm.tm_min ≤ 59
  ∧ 0 ≤ tm.tm_sec ∧ tm.tm_sec ≤ 60

/-- The crash of `sampleEnv` on a server whose local time zone is one hour
ahead of UTC. -/
def sampleEnvCET : Env :=
  { sampleEnv with gmtime := utcCalendar, localtime := fun t => utcCalendar (t + 3600) }

/-- The text is the number `n` written with exactly `w` decimal digits, padded
with zeros on the left. -/
def isZeroPadded (w : Nat) (n : Int) (text : String) : Prop :=
  text.data.length = w ∧ (∀ c ∈ text.data, c ∈ decChars)
    ∧ (valueOfDigits 10 text.data : Int) = n

/-- The handling of the fault raised by `TestCrash`: the same platform as
`sampleEnv`, with the next value of the `rand` sequence. -/
def sampleEnvNextRand : Env := { sampleEnv with rand := 54321 }

/-! ## Localization language changer (cf_localization_changer.cpp) -/

/-- Modelled from the spec: `Q_stricmp` (tier1/strtools) is not among the
sources; it compares two texts "ignoring case". The result is 0 when the texts
are equal after lowering the ASCII capitals, and non-zero otherwise; only
whether it is 0 is used. -/
def Q_stricmp (a b : String) : Int :=
  if a.data.map Char.toLower = b.data.map Char.toLower then 0 else 1

/-- Capacity of a path buffer (`MAX_PATH` of the platform headers). -/
def MAX_PATH : Nat := 260

/-- The table `g_pszLocalizationFiles`: each format `<before>%s<after>` as the
pair of the texts around `%s`. -/
def g_pszLocalizationFiles : List (String × String) :=
  [ ("resource/goldfortress_", ".txt"),
    ("resource/tf_", ".txt"),
    ("resource/chat_", ".txt"),
    ("resource/closecaption_", ".txt") ]

/-- Answers of the file system and of the localization system. -/
structure LocEnv where
  /-- whether `g_pFullFileSystem->FileExists( path, "GAME" )` holds -/
  FileExists : String → Bool
  /-- whether `g_pVGuiLocalize->AddFile( path, ... )` succeeds -/
  AddFile : String → Bool

/-- The state of the client as far as the language changer is concerned. -/
structure LocState where
  /-- text value of the console variable `cl_localization_language` -/
  cl_localization_language : String
  /-- whether `g_pVGuiLocalize` is non-null -/
  localizeAvailable : Bool
  /-- files the localization system holds, in the order they were added -/
  localizeFiles : List String
  /-- texts printed by `Msg` and `Warning`, oldest first -/
  console : List String
  /-- languages `LoadLocalizationLanguage` was called with, oldest first -/
  loads : List String
  /-- number of times `OnLocalizationLanguageChanged` was entered -/
  callbacks : Nat
  deriving DecidableEq, Repr

/-- One round of the loop over `g_pszLocalizationFiles`: the state and the
flag `bSuccess` after the file of one format was handled. -/
def loadOneFile (env : LocEnv) (pszLanguage : String) (acc : LocState × Bool)
    (format : String × String) : LocState × Bool :=
  let szPath := V_snprintf MAX_PATH (format.1 ++ pszLanguage ++ format.2)
  -- Check if file exists before trying to load
  if env.FileExists szPath then
    if env.AddFile szPath then
      ({ acc.1 with localizeFiles := acc.1.localizeFiles ++ [szPath],
                    console := acc.1.console ++ ["Loaded: " ++ szPath ++ "\n"] }, true)
    else
      ({ acc.1 with console := acc.1.console ++ ["Failed to load: " ++ szPath ++ "\n"] }, acc.2)
  else acc

def LoadLocalizationLanguage (env : LocEnv) (pszLanguage : String) (s : LocState) : LocState :=
  let s := { s with loads := s.loads ++ [pszLanguage] }
  if !s.localizeAvailable then
    { s with console := s.console ++ ["Localization system not available!\n"] }
  else
    -- Remove all existing localization strings
    let s := { s with localizeFiles := [] }
    -- Reload localization files with the new language
    let r := g_pszLocalizationFiles.foldl (loadOneFile env pszLanguage) (s, false)
    let s := r.1
    let bSuccess := r.2
    -- Reload the base localization files that exist
    let s :=
      if env.FileExists "resource/valve_%language%.txt" then
        if env.AddFile "resource/valve_%language%.txt" then
          { s with localizeFiles := s.localizeFiles ++ ["resource/valve_%language%.txt"] }
        else s
      else s
    if bSuccess then
      { s with console := s.console ++
          [ "Successfully changed localization to: " ++ pszLanguage ++ "\n",
            "Note: Some UI elements may require a map reload or restart to fully update.\n" ] }
    else
      { s with console := s.console ++
          [ "Failed to load localization files for language: " ++ pszLanguage ++ "\n" ] }

/-- The change callback of `cl_localization_language`. The argument `SetValue`
is what `pConVar->SetValue` does; the result is `none` when that call does not
return. -/
def OnLocalizationLanguageChanged (env : LocEnv)
    (SetValue : String → LocState → Option LocState) (pOldValue : String) (s : LocState) :
    Option LocState :=
  let s := { s with callbacks := s.callbacks + 1 }
  let pszLanguage := s.cl_localization_language
  -- Validate the language
  if Q_stricmp pszLanguage "english" ≠ 0 ∧ Q_stricmp pszLanguage "portuguese" ≠ 0 then
    let s := { s with console := s.console ++
      [ "Invalid language '" ++ pszLanguage
          ++ "' in cl_localization_language. Using 'english'.\n" ] }
    SetValue "english" s
  else
    -- Only load if it's actually changing
    if Q_stricmp pszLanguage pOldValue ≠ 0 then
      some (LoadLocalizationLanguage env pszLanguage s)
    else some s

/-- Modelled from the spec: `ConVar::SetValue` (tier1/convar) is not among the
sources; the console-variable registry is a given service of the host engine.
An assignment stores the new text and then invokes the change callback with
the previous text. Whether the engine also invokes the callback when the new
text equals the previous one is the parameter `callbackOnUnchanged`. The
number `fuel` bounds the depth of nested assignments; `none` means it was
exhausted. -/
def ConVar_SetValue (env : LocEnv) (callbackOnUnchanged : Bool) :
    Nat → String → LocState → Option LocState
  | 0, _, _ => none
  | fuel + 1, value, s =>
    let pszOldValue := s.cl_localization_language
    let s := { s with cl_localization_language := value }
    if value ≠ pszOldValue ∨ callbackOnUnchanged = true then
      OnLocalizationLanguageChanged env (ConVar_SetValue env callbackOnUnchanged fuel)
        pszOldValue s
    else some s

/-- Whether a text is one of the two languages, ignoring case. -/
def isLanguage (text : String) : Bool :=
  decide (Q_stricmp text "english" = 0) || decide (Q_stricmp text "portuguese" = 0)

/-- A client that runs in English with the localization system available. -/
def sampleClient : LocState :=
  { cl_localization_language := "english", localizeAvailable := true,
    localizeFiles := ["resource/goldfortress_english.txt"], console := [], loads := [],
    callbacks := 0 }

/-- A file system that holds every localization file, all of them loadable. -/
def sampleLocEnv : LocEnv := { FileExists := fun _ => true, AddFile := fun _ => true }

/-! ## Properties -/


theorem SignalHandler_of_guard_set (env : Env) (nSignal : Int) (pInfo : Option Nat) (s : State)
    (h : s.s_bInCrashHandler ≠ 0) :
    SignalHandler env nSignal pInfo s =
      { s with calls := s.calls ++ [Call._exit (128 + nSignal)],
               status := ProcStatus.exited (128 + nSignal) } := by
  unfold SignalHandler
  rw [if_pos h]

/-! ### What each step of the handling path leaves alone -/

@[simp] theorem CollectMetadata_calls (env : Env) (s : State) :
    (CollectMetadata env s).calls = s.calls ++ [Call.CollectMetadata] := by
  unfold CollectMetadata GenerateCrashID; cases env.maxrss <;> rfl

@[simp] theorem CollectMetadata_guard (env : Env) (s : State) :
    (CollectMetadata env s).s_bInCrashHandler = s.s_bInCrashHandler := by
  unfold CollectMetadata GenerateCrashID; cases env.maxrss <;> rfl

@[simp] theorem CollectMetadata_s_Old (env : Env) (s : State) :
    (CollectMetadata env s).s_Old = s.s_Old := by
  unfold CollectMetadata GenerateCrashID; cases env.maxrss <;> rfl

@[simp] theorem CollectMetadata_sigTable (env : Env) (s : State) :
    (CollectMetadata env s).sigTable = s.sigTable := by
  unfold CollectMetadata GenerateCrashID; cases env.maxrss <;> rfl

@[simp] theorem CollectMetadata_files (env : Env) (s : State) :
    (CollectMetadata env s).files = s.files := by
  unfold CollectMetadata GenerateCrashID; cases env.maxrss <;> rfl

@[simp] theorem CollectMetadata_stderr (env : Env) (s : State) :
    (CollectMetadata env s).stderr = s.stderr := by
  unfold CollectMetadata GenerateCrashID; cases env.maxrss <;> rfl

@[simp] theorem CollectMetadata_status (env : Env) (s : State) :
    (CollectMetadata env s).status = s.status := by
  unfold CollectMetadata GenerateCrashID; cases env.maxrss <;> rfl

@[simp] theorem CollectMetadata_szMap (env : Env) (s : State) :
    (CollectMetadata env s).s_Metadata.szMap = s.s_Metadata.szMap := by
  unfold CollectMetadata GenerateCrashID; cases env.maxrss <;> rfl

@[simp] theorem CollectMetadata_szGameMode (env : Env) (s : State) :
    (CollectMetadata env s).s_Metadata.szGameMode = s.s_Metadata.szGameMode := by
  unfold CollectMetadata GenerateCrashID; cases env.maxrss <;> rfl

@[simp] theorem CollectMetadata_nPlayerCount (env : Env) (s : State) :
    (CollectMetadata env s).s_Metadata.nPlayerCount = s.s_Metadata.nPlayerCount := by
  unfold CollectMetadata GenerateCrashID; cases env.maxrss <;> rfl

@[simp] theorem CollectMetadata_szSignal (env : Env) (s : State) :
    (CollectMetadata env s).s_Metadata.szSignal = s.s_Metadata.szSignal := by
  unfold CollectMetadata GenerateCrashID; cases env.maxrss <;> rfl

theorem WriteCrashReport_calls (env : Env) (stack : List Nat) (sig : String) (addr : Nat)
    (s : State) :
    (WriteCrashReport env stack sig addr s).2.calls
      = s.calls ++ ([Call.WriteCrashReport, Call.mkdir CRASH_LOG_DIR] ++ openCalls env) := by
  unfold WriteCrashReport writeOpened openCalls
  by_cases h1 : env.canOpen (primaryPath (env.localtime env.time)) = true
  · simp [h1]
  · by_cases h2 : env.canOpen (fallbackPath (env.localtime env.time)) = true
    · simp [h1, h2]
    · simp [h1, h2]

@[simp] theorem WriteCrashReport_guard (env : Env) (stack : List Nat) (sig : String) (addr : Nat)
    (s : State) :
    (WriteCrashReport env stack sig addr s).2.s_bInCrashHandler = s.s_bInCrashHandler := by
  unfold WriteCrashReport writeOpened
  by_cases h1 : env.canOpen (primaryPath (env.localtime env.time)) = true
  · simp [h1]
  · by_cases h2 : env.canOpen (fallbackPath (env.localtime env.time)) = true
    · simp [h1, h2]
    · simp [h1, h2]

@[simp] theorem WriteCrashReport_s_Old (env : Env) (stack : List Nat) (sig : String) (addr : Nat)
    (s : State) :
    (WriteCrashReport env stack sig addr s).2.s_Old = s.s_Old := by
  unfold WriteCrashReport writeOpened
  by_cases h1 : env.canOpen (primaryPath (env.localtime env.time)) = true
  · simp [h1]
  · by_cases h2 : env.canOpen (fallbackPath (env.localtime env.time)) = true
    · simp [h1, h2]
    · simp [h1, h2]

@[simp] theorem WriteCrashReport_sigTable (env : Env) (stack : List Nat) (sig : String)
    (addr : Nat) (s : State) :
    (WriteCrashReport env stack sig addr s).2.sigTable = s.sigTable := by
  unfold WriteCrashReport writeOpened
  by_cases h1 : env.canOpen (primaryPath (env.localtime env.time)) = true
  · simp [h1]
  · by_cases h2 : env.canOpen (fallbackPath (env.localtime env.time)) = true
    · simp [h1, h2]
    · simp [h1, h2]

@[simp] theorem WriteCrashReport_status (env : Env) (stack : List Nat) (sig : String)
    (addr : Nat) (s : State) :
    (WriteCrashReport env stack sig addr s).2.status = s.status := by
  unfold WriteCrashReport writeOpened
  by_cases h1 : env.canOpen (primaryPath (env.localtime env.time)) = true
  · simp [h1]
  · by_cases h2 : env.canOpen (fallbackPath (env.localtime env.time)) = true
    · simp [h1, h2]
    · simp [h1, h2]

@[simp] theorem WriteCrashReport_metadata (env : Env) (stack : List Nat) (sig : String)
    (addr : Nat) (s : State) :
    (WriteCrashReport env stack sig addr s).2.s_Metadata = s.s_Metadata := by
  unfold WriteCrashReport writeOpened
  by_cases h1 : env.canOpen (primaryPath (env.localtime env.time)) = true
  · simp [h1]
  · by_cases h2 : env.canOpen (fallbackPath (env.localtime env.time)) = true
    · simp [h1, h2]
    · simp [h1, h2]

theorem SignalHandler_of_guard_clear (env : Env) (nSignal : Int) (pInfo : Option Nat) (s : State)
    (h : s.s_bInCrashHandler = 0) :
    SignalHandler env nSignal pInfo s =
      raise nSignal (restoreOld nSignal
        (WriteCrashReport env (env.raSignalHandler :: (env.sigFrames ++ env.faultStack))
          (GetSignalName nSignal) (pInfo.getD 0) (collected env nSignal s)).2) := by
  unfold SignalHandler
  rw [if_neg (by simp [h])]
  rfl

@[simp] theorem restoreOld_guard (n : Int) (s : State) :
    (restoreOld n s).s_bInCrashHandler = s.s_bInCrashHandler := by
  unfold restoreOld; cases s.s_Old.get n <;> rfl

@[simp] theorem restoreOld_files (n : Int) (s : State) : (restoreOld n s).files = s.files := by
  unfold restoreOld; cases s.s_Old.get n <;> rfl

@[simp] theorem restoreOld_stderr (n : Int) (s : State) : (restoreOld n s).stderr = s.stderr := by
  unfold restoreOld; cases s.s_Old.get n <;> rfl

@[simp] theorem restoreOld_status (n : Int) (s : State) : (restoreOld n s).status = s.status := by
  unfold restoreOld; cases s.s_Old.get n <;> rfl

@[simp] theorem restoreOld_metadata (n : Int) (s : State) :
    (restoreOld n s).s_Metadata = s.s_Metadata := by
  unfold restoreOld; cases s.s_Old.get n <;> rfl

@[simp] theorem restoreOld_s_Old (n : Int) (s : State) : (restoreOld n s).s_Old = s.s_Old := by
  unfold restoreOld; cases s.s_Old.get n <;> rfl

theorem restoreOld_calls_no_report (n : Int) (s : State) :
    (restoreOld n s).calls.count Call.WriteCrashReport = s.calls.count Call.WriteCrashReport := by
  unfold restoreOld
  cases s.s_Old.get n with
  | none => rfl
  | some old => simp [sigaction]

theorem SignalHandler_guard_after (env : Env) (nSignal : Int) (pInfo : Option Nat) (s : State) :
    (SignalHandler env nSignal pInfo s).s_bInCrashHandler ≠ 0 := by
  by_cases h : s.s_bInCrashHandler = 0
  · rw [SignalHandler_of_guard_clear env nSignal pInfo s h]
    simp [raise, collected]
  · rw [SignalHandler_of_guard_set env nSignal pInfo s h]; exact h

/-! ### Re-entrancy guard -/

theorem count_report_exitCalls (later : List Invocation) :
    (later.map exitCall).count Call.WriteCrashReport = 0 := by
  induction later with
  | nil => rfl
  | cons inv rest ih => simp [exitCall, List.count_cons, ih]

theorem handleAll_of_guard_set (later : List Invocation) :
    ∀ s : State, s.s_bInCrashHandler ≠ 0 →
      (handleAll later s).calls = s.calls ++ later.map exitCall
      ∧ (handleAll later s).files = s.files
      ∧ (handleAll later s).stderr = s.stderr
      ∧ (handleAll later s).s_Metadata = s.s_Metadata
      ∧ (handleAll later s).sigTable = s.sigTable
      ∧ (handleAll later s).s_Old = s.s_Old := by
  induction later with
  | nil => intro s _; simp [handleAll]
  | cons inv rest ih =>
    intro s h
    have hstep : handleAll (inv :: rest) s
        = handleAll rest (SignalHandler inv.env inv.nSignal inv.pInfo s) := rfl
    rw [hstep, SignalHandler_of_guard_set inv.env inv.nSignal inv.pInfo s h]
    obtain ⟨h1, h2, h3, h4, h5, h6⟩ := ih
      { s with calls := s.calls ++ [Call._exit (128 + inv.nSignal)],
               status := ProcStatus.exited (128 + inv.nSignal) } h
    refine ⟨?_, h2, h3, h4, h5, h6⟩
    rw [h1]
    simp [exitCall]

theorem SignalHandler_fullReports_of_guard_clear (env : Env) (nSignal : Int)
    (pInfo : Option Nat) (s : State) (h : s.s_bInCrashHandler = 0) :
    fullReports (SignalHandler env nSignal pInfo s) = fullReports s + 1 := by
  rw [SignalHandler_of_guard_clear env nSignal pInfo s h]
  unfold fullReports
  have hopen : (openCalls env).count Call.WriteCrashReport = 0 := by
    unfold openCalls
    split <;> simp [List.count_cons]
  simp only [raise, List.count_append, restoreOld_calls_no_report, WriteCrashReport_calls,
    collected, CollectMetadata_calls, hopen]
  simp [List.count_cons]

/-- C1: when the re-entrancy guard is already set, `SignalHandler` only calls
`_exit( 128 + nSignal )`: the resulting state differs from the one it started
in by that one recorded call and the exit status, so the metadata, the files,
the standard error stream and the signal dispositions are untouched and
neither `CollectMetadata`, `WriteCrashReport`, `sigaction` nor `raise` is
called. Consequently, in any sequence of invocations that starts with the
guard clear, the first invocation enters `WriteCrashReport` exactly once and
every later invocation contributes nothing but its `_exit` call. -/
theorem SignalHandler_reentry_minimal_exit (env : Env) (nSignal : Int) (pInfo : Option Nat)
    (s : State) (h : s.s_bInCrashHandler ≠ 0)
    (s0 : State) (h0 : s0.s_bInCrashHandler = 0) (first : Invocation) (later : List Invocation) :
    SignalHandler env nSignal pInfo s =
        { s with calls := s.calls ++ [Call._exit (128 + nSignal)],
                 status := ProcStatus.exited (128 + nSignal) }
    ∧ (handleAll (first :: later) s0).calls
        = (SignalHandler first.env first.nSignal first.pInfo s0).calls ++ later.map exitCall
    ∧ fullReports (handleAll (first :: later) s0) = fullReports s0 + 1
    ∧ (handleAll (first :: later) s0).files
        = (SignalHandler first.env first.nSignal first.pInfo s0).files
    ∧ (handleAll (first :: later) s0).stderr
        = (SignalHandler first.env first.nSignal first.pInfo s0).stderr
    ∧ (handleAll (first :: later) s0).s_Metadata
        = (SignalHandler first.env first.nSignal first.pInfo s0).s_Metadata
    ∧ (handleAll (first :: later) s0).sigTable
        = (SignalHandler first.env first.nSignal first.pInfo s0).sigTable := by
  have hstep : handleAll (first :: later) s0
      = handleAll later (SignalHandler first.env first.nSignal first.pInfo s0) := rfl
  obtain ⟨h1, h2, h3, h4, h5, _⟩ := handleAll_of_guard_set later
    (SignalHandler first.env first.nSignal first.pInfo s0)
    (SignalHandler_guard_after first.env first.nSignal first.pInfo s0)
  refine ⟨SignalHandler_of_guard_set env nSignal pInfo s h, ?_, ?_, ?_, ?_, ?_, ?_⟩
  · rw [hstep, h1]
  · rw [hstep]
    unfold fullReports
    rw [h1, List.count_append, count_report_exitCalls]
    exact SignalHandler_fullReports_of_guard_clear first.env first.nSignal first.pInfo s0 h0
  · rw [hstep, h2]
  · rw [hstep, h3]
  · rw [hstep, h4]
  · rw [hstep, h5]

theorem SignalHandler_reentry_minimal_exit_witness :
    sampleCrashed.s_bInCrashHandler ≠ 0
    ∧ sampleRunning.s_bInCrashHandler = 0
    ∧ (SignalHandler sampleEnv SIGABRT none sampleCrashed).status = ProcStatus.exited 134
    ∧ (SignalHandler sampleEnv SIGABRT none sampleCrashed).files = sampleCrashed.files
    ∧ fullReports (handleAll [⟨sampleEnv, SIGSEGV, some 0⟩, ⟨sampleEnv, SIGABRT, none⟩]
        sampleRunning) = 1 :=
  have h := SignalHandler_reentry_minimal_exit sampleEnv SIGABRT none sampleCrashed (by decide)
    sampleRunning (by decide) ⟨sampleEnv, SIGSEGV, some 0⟩ [⟨sampleEnv, SIGABRT, none⟩]
  ⟨by decide, by decide, by rw [h.1]; rfl, by rw [h.1], by rw [h.2.2.1]; rfl⟩

/-! ### Restore and re-raise -/

theorem SigTable.get_of_intercepted (t : SigTable) (n : Int) (h : n ∈ interceptedSignals) :
    ∃ a, t.get n = some a := by
  simp only [interceptedSignals, List.mem_cons, List.mem_singleton, List.not_mem_nil,
    or_false] at h
  rcases h with h | h | h | h | h <;> subst h <;> simp [SigTable.get, SIGSEGV, SIGABRT, SIGFPE, SIGILL, SIGBUS]

theorem SigTable.get_set_self (t : SigTable) (n : Int) (a : SigAction)
    (h : n ∈ interceptedSignals) : (t.set n a).get n = some a := by
  simp only [interceptedSignals, List.mem_cons, List.mem_singleton, List.not_mem_nil,
    or_false] at h
  rcases h with h | h | h | h | h <;> subst h <;>
    simp [SigTable.get, SigTable.set, SIGSEGV, SIGABRT, SIGFPE, SIGILL, SIGBUS]

theorem InstallSignalHandlers_s_Old (s : State) :
    (InstallSignalHandlers s).s_Old = s.sigTable := by
  simp [InstallSignalHandlers, sigaction, Msg, SigTable.set, SIGSEGV, SIGABRT, SIGFPE, SIGILL,
    SIGBUS]

/-- C2: for each of the five intercepted signals and whatever the platform
answers during the handling (in particular whether `WriteCrashReport` opens a
file and returns true, or opens none and returns false), an invocation of
`SignalHandler` that starts with the guard clear ends by calling `sigaction`
with the action saved for that signal and then `raise` with the same signal:
the disposition of the signal is the saved one afterwards and the process has
not exited. The saved actions are the dispositions that were in place when
`InstallSignalHandlers` ran. -/
theorem SignalHandler_restores_then_reraises (env : Env) (nSignal : Int) (pInfo : Option Nat)
    (s : State) (hsig : nSignal ∈ interceptedSignals) (h : s.s_bInCrashHandler = 0) :
    ∃ old, s.s_Old.get nSignal = some old
      ∧ (SignalHandler env nSignal pInfo s).calls
          = s.calls ++ [Call.CollectMetadata, Call.WriteCrashReport, Call.mkdir CRASH_LOG_DIR]
              ++ openCalls env ++ [Call.sigaction nSignal old, Call.raise nSignal]
      ∧ (SignalHandler env nSignal pInfo s).sigTable.get nSignal = some old
      ∧ (SignalHandler env nSignal pInfo s).status = s.status
      ∧ ∀ s0 : State, (InstallSignalHandlers s0).s_Old.get nSignal = s0.sigTable.get nSignal := by
  obtain ⟨old, hold⟩ := SigTable.get_of_intercepted s.s_Old nSignal hsig
  refine ⟨old, hold, ?_, ?_, ?_, ?_⟩
  · rw [SignalHandler_of_guard_clear env nSignal pInfo s h]
    simp [raise, restoreOld, collected, hold, sigaction, WriteCrashReport_calls]
  · rw [SignalHandler_of_guard_clear env nSignal pInfo s h]
    simp [raise, restoreOld, collected, hold, sigaction, SigTable.get_set_self _ _ _ hsig]
  · rw [SignalHandler_of_guard_clear env nSignal pInfo s h]
    simp [raise, collected]
  · intro s0
    rw [InstallSignalHandlers_s_Old]

theorem SignalHandler_restores_then_reraises_witness :
    SIGSEGV ∈ interceptedSignals
    ∧ sampleRunning.s_bInCrashHandler = 0
    ∧ ∃ old, sampleRunning.s_Old.get SIGSEGV = some old
      ∧ (SignalHandler sampleEnvNoDisk SIGSEGV (some 0) sampleRunning).calls
          = sampleRunning.calls
              ++ [Call.CollectMetadata, Call.WriteCrashReport, Call.mkdir CRASH_LOG_DIR]
              ++ openCalls sampleEnvNoDisk ++ [Call.sigaction SIGSEGV old, Call.raise SIGSEGV]
      ∧ (SignalHandler sampleEnvNoDisk SIGSEGV (some 0) sampleRunning).sigTable.get SIGSEGV
          = some old
      ∧ (SignalHandler sampleEnvNoDisk SIGSEGV (some 0) sampleRunning).status
          = sampleRunning.status
      ∧ ∀ s0 : State, (InstallSignalHandlers s0).s_Old.get SIGSEGV = s0.sigTable.get SIGSEGV :=
  ⟨by decide, by decide,
   SignalHandler_restores_then_reraises sampleEnvNoDisk SIGSEGV (some 0) sampleRunning
     (by decide) (by decide)⟩

/-! ### Primary and fallback path -/

/-- What `WriteCrashReport` does, by outcome of the two `fopen` attempts. -/
theorem WriteCrashReport_outcome (env : Env) (stack : List Nat) (sig : String)
    (addr : Nat) (s : State) :
    (WriteCrashReport env stack sig addr s).2.calls
        = s.calls ++ [Call.WriteCrashReport, Call.mkdir CRASH_LOG_DIR]
          ++ (if env.canOpen (primaryPath (env.localtime env.time)) then
                [Call.fopen (primaryPath (env.localtime env.time)) true]
              else
                [Call.fopen (primaryPath (env.localtime env.time)) false,
                 Call.fopen (fallbackPath (env.localtime env.time))
                   (env.canOpen (fallbackPath (env.localtime env.time)))])
    ∧ (WriteCrashReport env stack sig addr s).1
        = (env.canOpen (primaryPath (env.localtime env.time))
            || env.canOpen (fallbackPath (env.localtime env.time)))
    ∧ (WriteCrashReport env stack sig addr s).2.files
        = (if env.canOpen (primaryPath (env.localtime env.time)) then
             { path := primaryPath (env.localtime env.time),
               chunks := reportText env s.s_Metadata sig addr
                 (backtrace (env.raWriteCrashReport :: stack) MAX_STACK_FRAMES) } :: s.files
           else if env.canOpen (fallbackPath (env.localtime env.time)) then
             { path := fallbackPath (env.localtime env.time),
               chunks := reportText env s.s_Metadata sig addr
                 (backtrace (env.raWriteCrashReport :: stack) MAX_STACK_FRAMES) } :: s.files
           else s.files)
    ∧ (WriteCrashReport env stack sig addr s).2.stderr
        = (if env.canOpen (primaryPath (env.localtime env.time)) then
             s.stderr ++
               [ "\n*** SERVER CRASH: " ++ sig ++ " at " ++ fmt_p addr ++ " ***\n",
                 "*** Crash log written to: " ++ primaryPath (env.localtime env.time)
                   ++ " ***\n\n" ]
           else if env.canOpen (fallbackPath (env.localtime env.time)) then
             s.stderr ++
               [ "\n*** SERVER CRASH: " ++ sig ++ " at " ++ fmt_p addr ++ " ***\n",
                 "*** Crash log written to: " ++ fallbackPath (env.localtime env.time)
                   ++ " ***\n\n" ]
           else s.stderr) := by
  unfold WriteCrashReport writeOpened
  by_cases h1 : env.canOpen (primaryPath (env.localtime env.time)) = true
  · simp [h1]
  · by_cases h2 : env.canOpen (fallbackPath (env.localtime env.time)) = true
    · simp [h1, h2]
    · simp [h1, h2]

/-- C3 as amended: `WriteCrashReport` first tries `fopen` on the primary path
under the crash directory and only when that fails tries the fallback path in
the current directory. The result is true exactly when one of the two could
be opened; the report goes to the primary file when it can be opened, to the
fallback file when only that one can be opened, and no file is written when
neither can. The two lines on the standard error stream are printed exactly
when a report file was written: when both paths are unwritable nothing is
printed there. -/
theorem WriteCrashReport_primary_then_fallback (env : Env) (stack : List Nat) (sig : String)
    (addr : Nat) (s : State) :
    (WriteCrashReport env stack sig addr s).2.calls
        = s.calls ++ [Call.WriteCrashReport, Call.mkdir CRASH_LOG_DIR]
          ++ (if env.canOpen (primaryPath (env.localtime env.time)) then
                [Call.fopen (primaryPath (env.localtime env.time)) true]
              else
                [Call.fopen (primaryPath (env.localtime env.time)) false,
                 Call.fopen (fallbackPath (env.localtime env.time))
                   (env.canOpen (fallbackPath (env.localtime env.time)))])
    ∧ (WriteCrashReport env stack sig addr s).1
        = (env.canOpen (primaryPath (env.localtime env.time))
            || env.canOpen (fallbackPath (env.localtime env.time)))
    ∧ (WriteCrashReport env stack sig addr s).2.files
        = (if env.canOpen (primaryPath (env.localtime env.time)) then
             { path := primaryPath (env.localtime env.time),
               chunks := reportText env s.s_Metadata sig addr
                 (backtrace (env.raWriteCrashReport :: stack) MAX_STACK_FRAMES) } :: s.files
           else if env.canOpen (fallbackPath (env.localtime env.time)) then
             { path := fallbackPath (env.localtime env.time),
               chunks := reportText env s.s_Metadata sig addr
                 (backtrace (env.raWriteCrashReport :: stack) MAX_STACK_FRAMES) } :: s.files
           else s.files)
    ∧ (WriteCrashReport env stack sig addr s).2.stderr
        = (if env.canOpen (primaryPath (env.localtime env.time)) then
             s.stderr ++
               [ "\n*** SERVER CRASH: " ++ sig ++ " at " ++ fmt_p addr ++ " ***\n",
                 "*** Crash log written to: " ++ primaryPath (env.localtime env.time)
                   ++ " ***\n\n" ]
           else if env.canOpen (fallbackPath (env.localtime env.time)) then
             s.stderr ++
               [ "\n*** SERVER CRASH: " ++ sig ++ " at " ++ fmt_p addr ++ " ***\n",
                 "*** Crash log written to: " ++ fallbackPath (env.localtime env.time)
                   ++ " ***\n\n" ]
           else s.stderr) :=
  WriteCrashReport_outcome env stack sig addr s

/-- C3, the claim as stated fails: with the primary and the fallback path both
unwritable, `WriteCrashReport` returns false, writes no file and prints
nothing on the standard error stream, and the handler that called it prints
nothing there either. -/
theorem WriteCrashReport_no_diagnostic_when_unwritable :
    sampleRunning.stderr = []
    ∧ (WriteCrashReport sampleEnvNoDisk [] "SIGSEGV (Segmentation Fault)" 0 sampleRunning).1
        = false
    ∧ (WriteCrashReport sampleEnvNoDisk [] "SIGSEGV (Segmentation Fault)" 0 sampleRunning).2.files
        = []
    ∧ (WriteCrashReport sampleEnvNoDisk [] "SIGSEGV (Segmentation Fault)" 0 sampleRunning).2.stderr
        = []
    ∧ (SignalHandler sampleEnvNoDisk SIGSEGV (some 0) sampleRunning).stderr = [] := by
  decide

/-! ### Metadata pushes and the report -/

@[simp] theorem CollectSystemInfo_szMap (env : Env) (s : State) :
    (CollectSystemInfo env s).s_Metadata.szMap = s.s_Metadata.szMap := by
  unfold CollectSystemInfo; cases env.uname <;> rfl

@[simp] theorem CollectSystemInfo_szGameMode (env : Env) (s : State) :
    (CollectSystemInfo env s).s_Metadata.szGameMode = s.s_Metadata.szGameMode := by
  unfold CollectSystemInfo; cases env.uname <;> rfl

@[simp] theorem CollectSystemInfo_nPlayerCount (env : Env) (s : State) :
    (CollectSystemInfo env s).s_Metadata.nPlayerCount = s.s_Metadata.nPlayerCount := by
  unfold CollectSystemInfo; cases env.uname <;> rfl

@[simp] theorem CollectSystemInfo_guard (env : Env) (s : State) :
    (CollectSystemInfo env s).s_bInCrashHandler = s.s_bInCrashHandler := by
  unfold CollectSystemInfo; cases env.uname <;> rfl

@[simp] theorem CollectSystemInfo_s_bEnabled (env : Env) (s : State) :
    (CollectSystemInfo env s).s_bEnabled = s.s_bEnabled := by
  unfold CollectSystemInfo; cases env.uname <;> rfl

@[simp] theorem CollectSystemInfo_s_bInitialized (env : Env) (s : State) :
    (CollectSystemInfo env s).s_bInitialized = s.s_bInitialized := by
  unfold CollectSystemInfo; cases env.uname <;> rfl

@[simp] theorem InstallSignalHandlers_metadata (s : State) :
    (InstallSignalHandlers s).s_Metadata = s.s_Metadata := rfl

@[simp] theorem InstallSignalHandlers_guard (s : State) :
    (InstallSignalHandlers s).s_bInCrashHandler = s.s_bInCrashHandler := rfl

@[simp] theorem InstallSignalHandlers_s_bInitialized (s : State) :
    (InstallSignalHandlers s).s_bInitialized = s.s_bInitialized := rfl

theorem Init_guard (env : Env) (s : State) :
    (Init env s).s_bInCrashHandler = s.s_bInCrashHandler := by
  unfold Init
  by_cases hi : s.s_bInitialized = true
  · simp [hi, Msg]
  · by_cases he : s.sv_crashreporting_enabled = 0 <;> simp [hi, he, Msg]

theorem Init_pushed_fields_of_uninitialized (env : Env) (s : State)
    (h : s.s_bInitialized = false) :
    (Init env s).s_Metadata.szMap = ""
    ∧ (Init env s).s_Metadata.szGameMode = ""
    ∧ (Init env s).s_Metadata.nPlayerCount = 0 := by
  unfold Init
  by_cases he : s.sv_crashreporting_enabled = 0 <;>
    simp [h, he, Msg, ServerCrashMetadata_t.zero]

theorem applyPushes_cons (op : Push) (later : List Push) (s : State) :
    applyPushes (op :: later) s = applyPushes later (op.apply s) := rfl

theorem applyPushes_guard (ops : List Push) :
    ∀ s : State, (applyPushes ops s).s_bInCrashHandler = s.s_bInCrashHandler := by
  induction ops with
  | nil => intro s; rfl
  | cons op later ih =>
    intro s
    rw [applyPushes_cons, ih]
    cases op with
    | SetCurrentMap p => cases p <;> rfl
    | SetGameMode p => cases p <;> rfl
    | SetPlayerCount n => rfl

theorem applyPushes_szMap (ops : List Push) :
    ∀ s : State, (applyPushes ops s).s_Metadata.szMap
      = (match lastMapPushed ops with
         | some name => V_strncpy name 128
         | none => s.s_Metadata.szMap) := by
  induction ops with
  | nil => intro s; rfl
  | cons op later ih =>
    intro s
    rw [applyPushes_cons, ih]
    simp only [lastMapPushed]
    cases hl : lastMapPushed later with
    | some name => rfl
    | none =>
      cases op with
      | SetCurrentMap p => cases p <;> rfl
      | SetGameMode p => cases p <;> rfl
      | SetPlayerCount n => rfl

theorem applyPushes_szGameMode (ops : List Push) :
    ∀ s : State, (applyPushes ops s).s_Metadata.szGameMode
      = (match lastModePushed ops with
         | some mode => V_strncpy mode 64
         | none => s.s_Metadata.szGameMode) := by
  induction ops with
  | nil => intro s; rfl
  | cons op later ih =>
    intro s
    rw [applyPushes_cons, ih]
    simp only [lastModePushed]
    cases hl : lastModePushed later with
    | some mode => rfl
    | none =>
      cases op with
      | SetCurrentMap p => cases p <;> rfl
      | SetGameMode p => cases p <;> rfl
      | SetPlayerCount n => rfl

theorem applyPushes_nPlayerCount (ops : List Push) :
    ∀ s : State, (applyPushes ops s).s_Metadata.nPlayerCount
      = (match lastPlayersPushed ops with
         | some n => n
         | none => s.s_Metadata.nPlayerCount) := by
  induction ops with
  | nil => intro s; rfl
  | cons op later ih =>
    intro s
    rw [applyPushes_cons, ih]
    simp only [lastPlayersPushed]
    cases hl : lastPlayersPushed later with
    | some n => rfl
    | none =>
      cases op with
      | SetCurrentMap p => cases p <;> rfl
      | SetGameMode p => cases p <;> rfl
      | SetPlayerCount n => rfl

/-- The report a full run of the handler leaves behind when one of the two
paths can be opened: the text built from the metadata collected in that run,
the name of the signal, the fault address and the captured stack. -/
theorem SignalHandler_lastReport (env : Env) (nSignal : Int) (pInfo : Option Nat) (s : State)
    (h : s.s_bInCrashHandler = 0)
    (hopen : (env.canOpen (primaryPath (env.localtime env.time))
               || env.canOpen (fallbackPath (env.localtime env.time))) = true) :
    lastReport (SignalHandler env nSignal pInfo s)
      = some (reportText env (collected env nSignal s).s_Metadata (GetSignalName nSignal)
          (pInfo.getD 0)
          (backtrace (env.raWriteCrashReport :: env.raSignalHandler
            :: (env.sigFrames ++ env.faultStack)) MAX_STACK_FRAMES)) := by
  rw [SignalHandler_of_guard_clear env nSignal pInfo s h]
  have hf := (WriteCrashReport_outcome env
    (env.raSignalHandler :: (env.sigFrames ++ env.faultStack)) (GetSignalName nSignal)
    (pInfo.getD 0) (collected env nSignal s)).2.2.1
  unfold lastReport
  simp only [raise, restoreOld_files, hf]
  by_cases h1 : env.canOpen (primaryPath (env.localtime env.time)) = true
  · simp [h1]
  · have h2 : env.canOpen (fallbackPath (env.localtime env.time)) = true := by
      simpa [h1] using hopen
    simp [h1, h2]

theorem collected_pushed_fields (env : Env) (nSignal : Int) (s : State) :
    (collected env nSignal s).s_Metadata.szMap = s.s_Metadata.szMap
    ∧ (collected env nSignal s).s_Metadata.szGameMode = s.s_Metadata.szGameMode
    ∧ (collected env nSignal s).s_Metadata.nPlayerCount = s.s_Metadata.nPlayerCount := by
  simp [collected]

/-- Items 6, 7, 8 and 12 of the report written by a full run of the handler
after `Init` and a sequence of setter calls. -/
theorem report_items_after_pushes (env0 env : Env) (s0 : State) (ops : List Push)
    (nSignal : Int) (pInfo : Option Nat)
    (hinit : s0.s_bInitialized = false) (hguard : s0.s_bInCrashHandler = 0)
    (hopen : (env.canOpen (primaryPath (env.localtime env.time))
               || env.canOpen (fallbackPath (env.localtime env.time))) = true) :
    reportItem 6 (SignalHandler env nSignal pInfo (applyPushes ops (Init env0 s0)))
        = some ("Map: " ++ shownText (lastMapPushed ops) 128 "(none)" ++ "\n")
    ∧ reportItem 7 (SignalHandler env nSignal pInfo (applyPushes ops (Init env0 s0)))
        = some ("Game Mode: " ++ shownText (lastModePushed ops) 64 "(unknown)" ++ "\n")
    ∧ reportItem 8 (SignalHandler env nSignal pInfo (applyPushes ops (Init env0 s0)))
        = some ("Players: " ++ fmt_d ((lastPlayersPushed ops).getD 0) ++ "\n")
    ∧ reportItem 12 (SignalHandler env nSignal pInfo (applyPushes ops (Init env0 s0)))
        = some ("Signal: " ++ GetSignalName nSignal ++ "\n") := by
  have hg : (applyPushes ops (Init env0 s0)).s_bInCrashHandler = 0 := by
    rw [applyPushes_guard, Init_guard, hguard]
  obtain ⟨hm, hgm, hp⟩ := collected_pushed_fields env nSignal (applyPushes ops (Init env0 s0))
  obtain ⟨im, igm, ip⟩ := Init_pushed_fields_of_uninitialized env0 s0 hinit
  unfold reportItem
  rw [SignalHandler_lastReport env nSignal pInfo _ hg hopen]
  simp only [reportText, reportHeader, reportMetadata, reportCrashInfo, hm, hgm, hp,
    applyPushes_szMap, applyPushes_szGameMode, applyPushes_nPlayerCount, im, igm, ip]
  refine ⟨?_, ?_, ?_, ?_⟩
  · cases lastMapPushed ops <;> simp [shownText, V_strncpy]
  · cases lastModePushed ops <;> simp [shownText, V_strncpy]
  · cases lastPlayersPushed ops <;> simp
  · simp

/-- C4 as amended: after `Init`, for every sequence of `SetCurrentMap`,
`SetGameMode` and `SetPlayerCount` calls followed by a crash whose report can
be written, each of the lines `Map:`, `Game Mode:` and `Players:` depends only
on the calls of its own setter. The `Map:` line shows the text of the most
recent `SetCurrentMap` call that passed a non-null pointer, cut to 127
characters, or `(none)` when that text is empty or there was no such call;
the `Game Mode:` line shows the text of the most recent non-null
`SetGameMode` call cut to 63 characters, or `(unknown)` in the same two
cases; the `Players:` line shows the number of the most recent
`SetPlayerCount` call, or 0 when there was none. -/
theorem report_shows_most_recent_pushes (env0 env : Env) (s0 : State) (ops : List Push)
    (nSignal : Int) (pInfo : Option Nat)
    (hinit : s0.s_bInitialized = false) (hguard : s0.s_bInCrashHandler = 0)
    (hopen : (env.canOpen (primaryPath (env.localtime env.time))
               || env.canOpen (fallbackPath (env.localtime env.time))) = true) :
    reportItem 6 (SignalHandler env nSignal pInfo (applyPushes ops (Init env0 s0)))
        = some ("Map: " ++ shownText (lastMapPushed ops) 128 "(none)" ++ "\n")
    ∧ reportItem 7 (SignalHandler env nSignal pInfo (applyPushes ops (Init env0 s0)))
        = some ("Game Mode: " ++ shownText (lastModePushed ops) 64 "(unknown)" ++ "\n")
    ∧ reportItem 8 (SignalHandler env nSignal pInfo (applyPushes ops (Init env0 s0)))
        = some ("Players: " ++ fmt_d ((lastPlayersPushed ops).getD 0) ++ "\n") := by
  obtain ⟨h6, h7, h8, _⟩ :=
    report_items_after_pushes env0 env s0 ops nSignal pInfo hinit hguard hopen
  exact ⟨h6, h7, h8⟩

theorem report_shows_most_recent_pushes_witness :
    (State.boot SigTable.zero).s_bInitialized = false
    ∧ (State.boot SigTable.zero).s_bInCrashHandler = 0
    ∧ (sampleEnv.canOpen (primaryPath (sampleEnv.localtime sampleEnv.time))
        || sampleEnv.canOpen (fallbackPath (sampleEnv.localtime sampleEnv.time))) = true
    ∧ reportItem 6 (SignalHandler sampleEnv SIGSEGV (some 0)
        (applyPushes [Push.SetCurrentMap (some "cp_dustbowl"), Push.SetPlayerCount 3,
            Push.SetCurrentMap (some "pl_upward"), Push.SetCurrentMap none]
          (Init sampleEnv (State.boot SigTable.zero))))
        = some "Map: pl_upward\n"
    ∧ reportItem 7 (SignalHandler sampleEnv SIGSEGV (some 0)
        (applyPushes [Push.SetCurrentMap (some "cp_dustbowl"), Push.SetPlayerCount 3,
            Push.SetCurrentMap (some "pl_upward"), Push.SetCurrentMap none]
          (Init sampleEnv (State.boot SigTable.zero))))
        = some "Game Mode: (unknown)\n"
    ∧ reportItem 8 (SignalHandler sampleEnv SIGSEGV (some 0)
        (applyPushes [Push.SetCurrentMap (some "cp_dustbowl"), Push.SetPlayerCount 3,
            Push.SetCurrentMap (some "pl_upward"), Push.SetCurrentMap none]
          (Init sampleEnv (State.boot SigTable.zero))))
        = some "Players: 3\n" :=
  ⟨by decide, by decide, by decide,
   report_shows_most_recent_pushes sampleEnv sampleEnv (State.boot SigTable.zero)
     [Push.SetCurrentMap (some "cp_dustbowl"), Push.SetPlayerCount 3,
      Push.SetCurrentMap (some "pl_upward"), Push.SetCurrentMap none]
     SIGSEGV (some 0) (by decide) (by decide) (by decide)⟩

/-- C4, the claim as stated fails: a map name of 128 characters is not the
text of the `Map:` line (the line shows its first 127 characters), and after
`SetCurrentMap( "" )` the line reads `Map: (none)` rather than showing the
empty text that was passed. -/
theorem report_map_line_differs_from_value_passed :
    reportItem 6 (SignalHandler sampleEnv SIGSEGV (some 0)
        (SetCurrentMap (some longMapName) sampleRunning))
      ≠ some ("Map: " ++ longMapName ++ "\n")
    ∧ reportItem 6 (SignalHandler sampleEnv SIGSEGV (some 0)
        (SetCurrentMap (some longMapName) sampleRunning))
      = some ("Map: " ++ truncate 127 longMapName ++ "\n")
    ∧ reportItem 6 (SignalHandler sampleEnv SIGSEGV (some 0)
        (SetCurrentMap (some "") sampleRunning))
      ≠ some ("Map: " ++ "" ++ "\n")
    ∧ reportItem 6 (SignalHandler sampleEnv SIGSEGV (some 0)
        (SetCurrentMap (some "") sampleRunning))
      = some "Map: (none)\n" := by
  decide

/-- C5: after `Init`, `SetCurrentMap( "ctf_2fort" )`, `SetGameMode( "ctf" )`
and `SetPlayerCount( 12 )`, a run of the handler for SIGSEGV whose report can
be written leaves a report whose metadata lines read `Map: ctf_2fort`,
`Game Mode: ctf` and `Players: 12` and whose signal line reads
`Signal: SIGSEGV (Segmentation Fault)`, the text `GetSignalName` returns for
SIGSEGV. -/
theorem report_of_ctf_2fort_scenario (env0 env : Env) (s0 : State) (pInfo : Option Nat)
    (hinit : s0.s_bInitialized = false) (hguard : s0.s_bInCrashHandler = 0)
    (hopen : (env.canOpen (primaryPath (env.localtime env.time))
               || env.canOpen (fallbackPath (env.localtime env.time))) = true) :
    reportItem 6 (SignalHandler env SIGSEGV pInfo
        (SetPlayerCount 12 (SetGameMode (some "ctf") (SetCurrentMap (some "ctf_2fort")
          (Init env0 s0)))))
      = some "Map: ctf_2fort\n"
    ∧ reportItem 7 (SignalHandler env SIGSEGV pInfo
        (SetPlayerCount 12 (SetGameMode (some "ctf") (SetCurrentMap (some "ctf_2fort")
          (Init env0 s0)))))
      = some "Game Mode: ctf\n"
    ∧ reportItem 8 (SignalHandler env SIGSEGV pInfo
        (SetPlayerCount 12 (SetGameMode (some "ctf") (SetCurrentMap (some "ctf_2fort")
          (Init env0 s0)))))
      = some "Players: 12\n"
    ∧ reportItem 12 (SignalHandler env SIGSEGV pInfo
        (SetPlayerCount 12 (SetGameMode (some "ctf") (SetCurrentMap (some "ctf_2fort")
          (Init env0 s0)))))
      = some "Signal: SIGSEGV (Segmentation Fault)\n"
    ∧ GetSignalName SIGSEGV = "SIGSEGV (Segmentation Fault)" := by
  obtain ⟨h6, h7, h8, h12⟩ := report_items_after_pushes env0 env s0
    [Push.SetCurrentMap (some "ctf_2fort"), Push.SetGameMode (some "ctf"),
     Push.SetPlayerCount 12] SIGSEGV pInfo hinit hguard hopen
  exact ⟨h6, h7, h8, h12, rfl⟩

theorem report_of_ctf_2fort_scenario_witness :
    (State.boot SigTable.zero).s_bInitialized = false
    ∧ (State.boot SigTable.zero).s_bInCrashHandler = 0
    ∧ (sampleEnv.canOpen (primaryPath (sampleEnv.localtime sampleEnv.time))
        || sampleEnv.canOpen (fallbackPath (sampleEnv.localtime sampleEnv.time))) = true
    ∧ reportItem 6 (SignalHandler sampleEnv SIGSEGV (some 3735928559)
        (SetPlayerCount 12 (SetGameMode (some "ctf") (SetCurrentMap (some "ctf_2fort")
          (Init sampleEnv (State.boot SigTable.zero))))))
      = some "Map: ctf_2fort\n"
    ∧ reportItem 13 (SignalHandler sampleEnv SIGSEGV (some 3735928559)
        (SetPlayerCount 12 (SetGameMode (some "ctf") (SetCurrentMap (some "ctf_2fort")
          (Init sampleEnv (State.boot SigTable.zero))))))
      = some "Fault Address: 0xdeadbeef\n\n" :=
  ⟨by decide, by decide, by decide,
   (report_of_ctf_2fort_scenario sampleEnv sampleEnv (State.boot SigTable.zero)
     (some 3735928559) (by decide) (by decide) (by decide)).1,
   by decide⟩

/-! ### Frame entries of the report -/

theorem frameEntries_append (a b : List String) :
    frameEntries (a ++ b) = frameEntries a ++ frameEntries b := by
  simp [frameEntries]

theorem frameEntries_frameEntry (env : Env) (ppSymbols : Nat → String) (i addr : Nat) :
    frameEntries (frameEntry env ppSymbols i addr) = [frameEntryLine env ppSymbols i addr] := by
  unfold frameEntryLine frameEntry
  cases env.dladdr addr with
  | none => rfl
  | some dlInfo =>
    rcases dlInfo with ⟨fname, fbase, _ | sname, saddr⟩
    · rfl
    · rfl

theorem frameEntryLine_numbered (env : Env) (ppSymbols : Nat → String) (i addr : Nat) :
    ∃ rest, frameEntryLine env ppSymbols i addr = "#" ++ fmt_ld2 i ++ " " ++ rest := by
  unfold frameEntryLine frameEntry
  cases env.dladdr addr with
  | none => exact ⟨ppSymbols addr ++ "\n", by simp [String.append_assoc]⟩
  | some dlInfo =>
    rcases dlInfo with ⟨fname, fbase, _ | sname, saddr⟩
    · exact ⟨ppSymbols addr ++ "\n", by simp [String.append_assoc]⟩
    · exact ⟨fmt_p addr ++ " in " ++ DemangleSymbol env sname 512 ++ "+0x"
        ++ fmt_tx ((addr : Int) - (saddr : Int)) ++ "\n",
        by simp [String.append_assoc]⟩

theorem frameEntries_frameLoop (env : Env) (ppSymbols : Nat → String) (frames : List Nat) :
    ∀ i k : Nat, (frameEntries (frameLoop env ppSymbols i frames))[k]?
      = (frames[k]?).map (fun addr => frameEntryLine env ppSymbols (i + k) addr) := by
  induction frames with
  | nil => intro i k; simp [frameLoop, frameEntries]
  | cons addr rest ih =>
    intro i k
    rw [frameLoop, frameEntries_append, frameEntries_frameEntry]
    cases k with
    | zero => simp
    | succ k =>
      simp only [List.singleton_append, List.getElem?_cons_succ]
      rw [ih (i + 1) k]
      have : i + 1 + k = i + (k + 1) := by omega
      rw [this]

theorem frameEntries_frameLoop_length (env : Env) (ppSymbols : Nat → String)
    (frames : List Nat) :
    ∀ i : Nat, (frameEntries (frameLoop env ppSymbols i frames)).length = frames.length := by
  induction frames with
  | nil => intro i; rfl
  | cons addr rest ih =>
    intro i
    rw [frameLoop, frameEntries_append, frameEntries_frameEntry]
    simp [ih (i + 1)]

theorem frameEntries_addr2lineLoop (env : Env) (frames : List Nat) :
    frameEntries (addr2lineLoop env frames) = [] := by
  induction frames with
  | nil => rfl
  | cons addr rest ih =>
    rw [addr2lineLoop, frameEntries_append, ih]
    cases env.dladdr addr with
    | none => rfl
    | some dlInfo =>
      rcases dlInfo with ⟨_ | fname, fbase, sname, saddr⟩
      · rfl
      · rfl

/-- The frame entries of a report are those its frame loop printed; there are
none when `backtrace_symbols` returned NULL. -/
theorem frameEntries_reportText (env : Env) (m : ServerCrashMetadata_t) (sig : String)
    (addr : Nat) (frames : List Nat) :
    frameEntries (reportText env m sig addr frames)
      = (match env.backtrace_symbols with
         | some ppSymbols => frameEntries (frameLoop env ppSymbols 0 frames)
         | none => []) := by
  have h1 : frameEntries reportHeader = [] := rfl
  have h2 : frameEntries (reportMetadata m) = [] := rfl
  have h3 : frameEntries (reportCrashInfo sig addr) = [] := rfl
  have h4 : frameEntries (reportTrailer env frames) = [] := by
    unfold reportTrailer
    rw [frameEntries_append, frameEntries_append, frameEntries_addr2lineLoop]
    rfl
  unfold reportText reportStackTrace
  simp only [frameEntries_append, h1, h2, h3, h4, List.nil_append, List.append_nil]
  cases env.backtrace_symbols with
  | none => rfl
  | some ppSymbols =>
    show frameEntries _ ++ frameEntries (frameLoop env ppSymbols 0 frames) = _
    have h5 : frameEntries [ "Stack Trace (" ++ fmt_d (frames.length : Int) ++ " frames):\n",
        dashRule ++ "\n" ] = [] := rfl
    rw [h5, List.nil_append]

theorem WriteCrashReport_lastReport (env : Env) (stack : List Nat) (sig : String) (addr : Nat)
    (s : State)
    (hopen : (env.canOpen (primaryPath (env.localtime env.time))
               || env.canOpen (fallbackPath (env.localtime env.time))) = true) :
    lastReport (WriteCrashReport env stack sig addr s).2
      = some (reportText env s.s_Metadata sig addr
          (backtrace (env.raWriteCrashReport :: stack) MAX_STACK_FRAMES)) := by
  have hf := (WriteCrashReport_outcome env stack sig addr s).2.2.1
  unfold lastReport
  rw [hf]
  by_cases h1 : env.canOpen (primaryPath (env.localtime env.time)) = true
  · simp [h1]
  · have h2 : env.canOpen (fallbackPath (env.localtime env.time)) = true := by
      simpa [h1] using hopen
    simp [h1, h2]

theorem reportText_item_14 (env : Env) (m : ServerCrashMetadata_t) (sig : String) (addr : Nat)
    (frames : List Nat) :
    (reportText env m sig addr frames)[14]?
      = some ("Stack Trace (" ++ fmt_d (frames.length : Int) ++ " frames):\n") := by
  simp [reportText, reportHeader, reportMetadata, reportCrashInfo, reportStackTrace]

theorem reportText_item_16_of_no_symbols (env : Env) (m : ServerCrashMetadata_t) (sig : String)
    (addr : Nat) (frames : List Nat) (h : env.backtrace_symbols = none) :
    (reportText env m sig addr frames)[16]? = some "Failed to get symbol names\n" := by
  simp [reportText, reportHeader, reportMetadata, reportCrashInfo, reportStackTrace, h]

/-- C6 as amended: whenever `WriteCrashReport` writes a report, `backtrace`
has captured n addresses with n at most 64 and the heading of the stack trace
announces n frames. If `backtrace_symbols` succeeded, the report contains
exactly n numbered frame entries, whatever `dladdr` and the demangler answer
for each frame: no frame is removed or skipped. If `backtrace_symbols`
returned NULL, the report contains no frame entry at all but the single line
`Failed to get symbol names` in their place. The same count holds for the
report text of any list of captured addresses, the empty one included. -/
theorem WriteCrashReport_frame_entry_count (env : Env) (stack : List Nat) (sig : String)
    (addr : Nat) (s : State)
    (hopen : (env.canOpen (primaryPath (env.localtime env.time))
               || env.canOpen (fallbackPath (env.localtime env.time))) = true) :
    ∃ report, lastReport (WriteCrashReport env stack sig addr s).2 = some report
      ∧ (backtrace (env.raWriteCrashReport :: stack) MAX_STACK_FRAMES).length ≤ 64
      ∧ report[14]? = some ("Stack Trace ("
          ++ fmt_d ((backtrace (env.raWriteCrashReport :: stack) MAX_STACK_FRAMES).length : Int)
          ++ " frames):\n")
      ∧ (frameEntries report).length
          = (match env.backtrace_symbols with
             | some _ => (backtrace (env.raWriteCrashReport :: stack) MAX_STACK_FRAMES).length
             | none => 0)
      ∧ (env.backtrace_symbols.isSome = true
          ∨ report[16]? = some "Failed to get symbol names\n")
      ∧ ∀ (m : ServerCrashMetadata_t) (frames : List Nat),
          (frameEntries (reportText env m sig addr frames)).length
            = (match env.backtrace_symbols with
               | some _ => frames.length
               | none => 0) := by
  refine ⟨_, WriteCrashReport_lastReport env stack sig addr s hopen, ?_, ?_, ?_, ?_, ?_⟩
  · simp [backtrace, MAX_STACK_FRAMES]
  · exact reportText_item_14 env s.s_Metadata sig addr _
  · rw [frameEntries_reportText]
    cases env.backtrace_symbols with
    | none => rfl
    | some ppSymbols => exact frameEntries_frameLoop_length env ppSymbols _ 0
  · cases h : env.backtrace_symbols with
    | none => exact Or.inr (reportText_item_16_of_no_symbols env s.s_Metadata sig addr _ h)
    | some ppSymbols => exact Or.inl rfl
  · intro m frames
    rw [frameEntries_reportText]
    cases env.backtrace_symbols with
    | none => rfl
    | some ppSymbols => exact frameEntries_frameLoop_length env ppSymbols frames 0

theorem WriteCrashReport_frame_entry_count_witness :
    (sampleEnv.canOpen (primaryPath (sampleEnv.localtime sampleEnv.time))
        || sampleEnv.canOpen (fallbackPath (sampleEnv.localtime sampleEnv.time))) = true
    ∧ ∃ report, lastReport (WriteCrashReport sampleEnv [4199680, 4202496]
          "SIGSEGV (Segmentation Fault)" 0 sampleRunning).2 = some report
      ∧ (backtrace (sampleEnv.raWriteCrashReport :: [4199680, 4202496]) MAX_STACK_FRAMES).length
          ≤ 64
      ∧ report[14]? = some ("Stack Trace ("
          ++ fmt_d ((backtrace (sampleEnv.raWriteCrashReport :: [4199680, 4202496])
              MAX_STACK_FRAMES).length : Int)
          ++ " frames):\n")
      ∧ (frameEntries report).length
          = (match sampleEnv.backtrace_symbols with
             | some _ =>
               (backtrace (sampleEnv.raWriteCrashReport :: [4199680, 4202496])
                 MAX_STACK_FRAMES).length
             | none => 0)
      ∧ (sampleEnv.backtrace_symbols.isSome = true
          ∨ report[16]? = some "Failed to get symbol names\n")
      ∧ ∀ (m : ServerCrashMetadata_t) (frames : List Nat),
          (frameEntries (reportText sampleEnv m "SIGSEGV (Segmentation Fault)" 0 frames)).length
            = (match sampleEnv.backtrace_symbols with
               | some _ => frames.length
               | none => 0) :=
  ⟨by decide,
   WriteCrashReport_frame_entry_count sampleEnv [4199680, 4202496]
     "SIGSEGV (Segmentation Fault)" 0 sampleRunning (by decide)⟩

/-- C6, the claim as stated fails: when `backtrace_symbols` returns NULL the
report of a captured stack of three addresses announces three frames and
contains no numbered frame entry. -/
theorem report_without_symbols_has_no_frame_entries :
    (backtrace (sampleEnvNoSymbols.raWriteCrashReport :: [4199680, 4202496])
        MAX_STACK_FRAMES).length = 3
    ∧ (lastReport (WriteCrashReport sampleEnvNoSymbols [4199680, 4202496]
          "SIGSEGV (Segmentation Fault)" 0 sampleRunning).2).map frameEntries = some []
    ∧ reportItem 14 (WriteCrashReport sampleEnvNoSymbols [4199680, 4202496]
          "SIGSEGV (Segmentation Fault)" 0 sampleRunning).2
        = some "Stack Trace (3 frames):\n"
    ∧ reportItem 16 (WriteCrashReport sampleEnvNoSymbols [4199680, 4202496]
          "SIGSEGV (Segmentation Fault)" 0 sampleRunning).2
        = some "Failed to get symbol names\n" := by
  decide

theorem capturedInHandler_frames (env : Env) :
    (capturedInHandler env)[0]? = some env.raWriteCrashReport
    ∧ (capturedInHandler env)[1]? = some env.raSignalHandler
    ∧ (2 + env.sigFrames.length < MAX_STACK_FRAMES →
        (capturedInHandler env)[2 + env.sigFrames.length]? = env.faultStack.head?) := by
  refine ⟨?_, ?_, ?_⟩
  · simp [capturedInHandler, backtrace, MAX_STACK_FRAMES, List.getElem?_take]
  · simp [capturedInHandler, backtrace, MAX_STACK_FRAMES, List.getElem?_take]
  · intro h
    have h2 : 2 + env.sigFrames.length = env.sigFrames.length + 1 + 1 := by omega
    simp only [capturedInHandler, backtrace]
    rw [List.getElem?_take, if_pos h, h2, List.getElem?_cons_succ, List.getElem?_cons_succ,
      List.getElem?_append_right (Nat.le_refl _), Nat.sub_self, List.head?_eq_getElem?]

/-- C7 as amended: in every report produced by the crash path for which
`backtrace_symbols` gave the symbol names, there is one frame entry per
captured address, entry number k starts with `#k` and renders the k-th
address that `backtrace` captured, so the entries are numbered 0, 1, 2, ...
in increasing order with no gaps. Entry #0 renders the frame of
`WriteCrashReport` itself, the caller of `backtrace`, and entry #1 the frame
of `SignalHandler`; the faulting frame comes after these and after the
signal-delivery frames of the platform, at index 2 plus the number of those
frames when that is below the maximum of 64. -/
theorem SignalHandler_frame_entries_numbered (env : Env) (nSignal : Int) (pInfo : Option Nat)
    (s : State) (ppSymbols : Nat → String)
    (hguard : s.s_bInCrashHandler = 0)
    (hopen : (env.canOpen (primaryPath (env.localtime env.time))
               || env.canOpen (fallbackPath (env.localtime env.time))) = true)
    (hsym : env.backtrace_symbols = some ppSymbols) :
    ∃ report, lastReport (SignalHandler env nSignal pInfo s) = some report
      ∧ (frameEntries report).length = (capturedInHandler env).length
      ∧ (∀ k, k < (capturedInHandler env).length →
          ∃ rest, (frameEntries report)[k]? = some ("#" ++ fmt_ld2 (k : Int) ++ " " ++ rest))
      ∧ (∀ k, (frameEntries report)[k]?
          = ((capturedInHandler env)[k]?).map (fun a => frameEntryLine env ppSymbols k a))
      ∧ (capturedInHandler env)[0]? = some env.raWriteCrashReport
      ∧ (capturedInHandler env)[1]? = some env.raSignalHandler
      ∧ (2 + env.sigFrames.length < MAX_STACK_FRAMES →
          (capturedInHandler env)[2 + env.sigFrames.length]? = env.faultStack.head?) := by
  have hentries : ∀ k, (frameEntries (reportText env (collected env nSignal s).s_Metadata
      (GetSignalName nSignal) (pInfo.getD 0) (capturedInHandler env)))[k]?
        = ((capturedInHandler env)[k]?).map (fun a => frameEntryLine env ppSymbols k a) := by
    intro k
    rw [frameEntries_reportText, hsym]
    simp only
    rw [frameEntries_frameLoop env ppSymbols (capturedInHandler env) 0 k, Nat.zero_add]
  obtain ⟨c0, c1, c2⟩ := capturedInHandler_frames env
  refine ⟨_, SignalHandler_lastReport env nSignal pInfo s hguard hopen, ?_, ?_, hentries,
    c0, c1, c2⟩
  · show (frameEntries (reportText env _ _ _ (capturedInHandler env))).length = _
    rw [frameEntries_reportText, hsym]
    exact frameEntries_frameLoop_length env ppSymbols _ 0
  · intro k hk
    obtain ⟨rest, hrest⟩ := frameEntryLine_numbered env ppSymbols k
      ((capturedInHandler env).get ⟨k, hk⟩)
    refine ⟨rest, ?_⟩
    show (frameEntries (reportText env _ _ _ (capturedInHandler env)))[k]? = _
    rw [hentries k, List.getElem?_eq_getElem hk]
    simp only [Option.map_some']
    rw [← hrest]
    rfl

theorem SignalHandler_frame_entries_numbered_witness :
    sampleRunning.s_bInCrashHandler = 0
    ∧ (sampleEnv.canOpen (primaryPath (sampleEnv.localtime sampleEnv.time))
        || sampleEnv.canOpen (fallbackPath (sampleEnv.localtime sampleEnv.time))) = true
    ∧ sampleEnv.backtrace_symbols = some sampleSymbols
    ∧ ∃ report, lastReport (SignalHandler sampleEnv SIGSEGV (some 0) sampleRunning) = some report
      ∧ (frameEntries report).length = (capturedInHandler sampleEnv).length
      ∧ (∀ k, k < (capturedInHandler sampleEnv).length →
          ∃ rest, (frameEntries report)[k]? = some ("#" ++ fmt_ld2 (k : Int) ++ " " ++ rest))
      ∧ (∀ k, (frameEntries report)[k]?
          = ((capturedInHandler sampleEnv)[k]?).map
              (fun a => frameEntryLine sampleEnv sampleSymbols k a))
      ∧ (capturedInHandler sampleEnv)[0]? = some sampleEnv.raWriteCrashReport
      ∧ (capturedInHandler sampleEnv)[1]? = some sampleEnv.raSignalHandler
      ∧ (2 + sampleEnv.sigFrames.length < MAX_STACK_FRAMES →
          (capturedInHandler sampleEnv)[2 + sampleEnv.sigFrames.length]?
            = sampleEnv.faultStack.head?) :=
  ⟨by decide, by decide, rfl,
   SignalHandler_frame_entries_numbered sampleEnv SIGSEGV (some 0) sampleRunning sampleSymbols
     (by decide) (by decide) rfl⟩

/-- C7, the claim as stated fails: in the report of a segmentation fault
raised at address 0x402000, entry #0 renders the return address 0x401200
inside `WriteCrashReport`, not the faulting frame; the faulting frame is
entry #3, after the frames of `WriteCrashReport`, of `SignalHandler` and of
the signal delivery. -/
theorem report_entry_zero_is_not_the_faulting_frame :
    sampleEnv.faultStack.head? = some 4202496
    ∧ sampleEnv.raWriteCrashReport = 4198912
    ∧ (lastReport sampleCrashed).map (fun report => (frameEntries report)[0]?)
        = some (some "#0  ./srcds_linux() [0x401200]\n")
    ∧ (lastReport sampleCrashed).map (fun report => (frameEntries report)[0]?)
        ≠ some (some (frameEntryLine sampleEnv sampleSymbols 0 4202496))
    ∧ (lastReport sampleCrashed).map (fun report => (frameEntries report)[3]?)
        = some (some "#3  ./srcds_linux() [0x402000]\n") := by
  decide

/-! ### Lifecycle -/

/-- C8, evaluated at the failing input: on a server initialised with reporting
enabled, `SetEnabled( false )` makes `IsEnabled` false and clears the console
variable, yet the subsystem's handler is still the disposition of SIGSEGV and
a segmentation fault delivered afterwards still produces a full report. With
the console variable 0 at `Init` no handler is installed and a fault produces
no report. -/
theorem SetEnabled_false_keeps_reporting :
    IsEnabled sampleRunning = true
    ∧ IsEnabled (SetEnabled false sampleRunning) = false
    ∧ (SetEnabled false sampleRunning).sv_crashreporting_enabled = 0
    ∧ (SetEnabled false sampleRunning).sigTable.get SIGSEGV = some crashAction
    ∧ fullReports (deliver sampleEnv SIGSEGV (some 0) (SetEnabled false sampleRunning)) = 1
    ∧ reportItem 12 (deliver sampleEnv SIGSEGV (some 0) (SetEnabled false sampleRunning))
        = some "Signal: SIGSEGV (Segmentation Fault)\n"
    ∧ sampleDisabledAtInit.sigTable = SigTable.zero
    ∧ (deliver sampleEnv SIGSEGV (some 0) sampleDisabledAtInit).files = []
    ∧ fullReports (deliver sampleEnv SIGSEGV (some 0) sampleDisabledAtInit) = 0
    ∧ (deliver sampleEnv SIGSEGV (some 0) sampleDisabledAtInit).status
        = ProcStatus.signalled SIGSEGV := by
  decide

theorem Init_s_bInitialized (env : Env) (s : State) : (Init env s).s_bInitialized = true := by
  unfold Init
  by_cases hi : s.s_bInitialized = true
  · simp [hi, Msg]
  · by_cases he : s.sv_crashreporting_enabled = 0 <;> simp [hi, he, Msg]

theorem Init_of_initialized (env : Env) (s : State) (h : s.s_bInitialized = true) :
    Init env s = { s with console := s.console ++ ["[ServerCrashHandler] Already initialized.\n"] } := by
  unfold Init
  rw [if_pos h]
  rfl

/-- C9: `Init` is idempotent. In every state in which the subsystem is already
initialized, `Init` only prints the notice `Already initialized.`: the
resulting state differs from the one it started in by that console line
alone, so the enabled flag, every metadata field, the installed dispositions
and the saved handlers are unchanged. Hence, from any state, a second `Init`
right after a first one adds nothing but that notice. -/
theorem Init_idempotent (env : Env) (s : State) (h : s.s_bInitialized = true) :
    Init env s
        = { s with console := s.console ++ ["[ServerCrashHandler] Already initialized.\n"] }
    ∧ (Init env s).s_bEnabled = s.s_bEnabled
    ∧ (Init env s).s_bInitialized = s.s_bInitialized
    ∧ (Init env s).s_Metadata = s.s_Metadata
    ∧ (Init env s).sigTable = s.sigTable
    ∧ (Init env s).s_Old = s.s_Old
    ∧ (Init env s).sv_crashreporting_enabled = s.sv_crashreporting_enabled
    ∧ (Init env s).calls = s.calls
    ∧ ∀ (env1 : Env) (s0 : State),
        Init env (Init env1 s0)
          = { Init env1 s0 with
              console := (Init env1 s0).console
                ++ ["[ServerCrashHandler] Already initialized.\n"] } := by
  have he := Init_of_initialized env s h
  refine ⟨he, ?_, ?_, ?_, ?_, ?_, ?_, ?_, ?_⟩
  · rw [he]
  · rw [he]
  · rw [he]
  · rw [he]
  · rw [he]
  · rw [he]
  · rw [he]
  · intro env1 s0
    exact Init_of_initialized env (Init env1 s0) (Init_s_bInitialized env1 s0)

theorem Init_idempotent_witness :
    sampleRunning.s_bInitialized = true
    ∧ Init sampleEnvNoDisk sampleRunning
        = { sampleRunning with
            console := sampleRunning.console ++ ["[ServerCrashHandler] Already initialized.\n"] }
    ∧ (Init sampleEnvNoDisk sampleRunning).s_Metadata = sampleRunning.s_Metadata
    ∧ (Init sampleEnvNoDisk sampleRunning).sigTable = sampleRunning.sigTable
    ∧ (Init sampleEnvNoDisk sampleRunning).s_Old = sampleRunning.s_Old :=
  have h := Init_idempotent sampleEnvNoDisk sampleRunning (by decide)
  ⟨by decide, h.1, h.2.2.2.1, h.2.2.2.2.1, h.2.2.2.2.2.1⟩

/-- C10, evaluated at the failing input: on a process whose five signals had
the default disposition, `Init`, `Shutdown`, `Init` with the console variable
left at 1 runs `InstallSignalHandlers` twice. After the first `Init` the saved
handlers are the default dispositions; after the second they are the
subsystem's own `SignalHandler` action for all five signals. A segmentation
fault is then still reported once, but the handler restores its own action,
and the delivery of the re-raised signal enters `SignalHandler` again, which
ends the process with `_exit( 139 )`. -/
theorem second_install_saves_own_handler :
    (State.boot SigTable.zero).sigTable = SigTable.zero
    ∧ sampleRunning.s_Old = SigTable.zero
    ∧ (Init sampleEnv (Shutdown sampleRunning)).s_Old
        = { segv := crashAction, abrt := crashAction, fpe := crashAction,
            ill := crashAction, bus := crashAction }
    ∧ (Init sampleEnv (Shutdown sampleRunning)).s_Old.segv.handler = HandlerFn.SignalHandler
    ∧ (deliver sampleEnv SIGSEGV (some 0) (Init sampleEnv (Shutdown sampleRunning))).sigTable.get
          SIGSEGV = some crashAction
    ∧ (deliver sampleEnv SIGSEGV (some 0) (Init sampleEnv (Shutdown sampleRunning))).status
        = ProcStatus.running
    ∧ (deliver sampleEnv SIGSEGV (some 0)
        (deliver sampleEnv SIGSEGV (some 0) (Init sampleEnv (Shutdown sampleRunning)))).status
        = ProcStatus.exited 139
    ∧ (deliver sampleEnv SIGSEGV (some 0)
        (deliver sampleEnv SIGSEGV (some 0) sampleRunning)).status
        = ProcStatus.signalled SIGSEGV := by
  decide

/-! ### Shutdown -/

/-- C11: in every state `Shutdown` clears the initialized flag and the enabled
flag, so `IsEnabled` returns false afterwards, and changes nothing else: the
dispositions installed for the five signals, the saved previous handlers, the
metadata, the console variable, the guard, the files and both output streams
are as before, and no call is made. -/
theorem Shutdown_clears_flags_only (s : State) :
    Shutdown s = { s with s_bInitialized := false, s_bEnabled := false }
    ∧ (Shutdown s).s_bInitialized = false
    ∧ (Shutdown s).s_bEnabled = false
    ∧ IsEnabled (Shutdown s) = false
    ∧ (Shutdown s).sigTable = s.sigTable
    ∧ (Shutdown s).s_Old = s.s_Old
    ∧ (Shutdown s).s_Metadata = s.s_Metadata
    ∧ (Shutdown s).sv_crashreporting_enabled = s.sv_crashreporting_enabled
    ∧ (Shutdown s).s_bInCrashHandler = s.s_bInCrashHandler
    ∧ (Shutdown s).files = s.files
    ∧ (Shutdown s).stderr = s.stderr
    ∧ (Shutdown s).console = s.console
    ∧ (Shutdown s).calls = s.calls
    ∧ (Shutdown s).status = s.status := by
  refine ⟨rfl, rfl, rfl, ?_, rfl, rfl, rfl, rfl, rfl, rfl, rfl, rfl, rfl, rfl⟩
  simp [IsEnabled, Shutdown]

/-! ### Fixed-capacity text fields -/

theorem truncate_data_length (n : Nat) (s : String) :
    (truncate n s).data.length = min n s.data.length := by
  simp [truncate, List.length_take]

theorem truncate_of_length_le (n : Nat) (s : String) (h : s.data.length ≤ n) :
    truncate n s = s := by
  unfold truncate
  rw [List.take_of_length_le h]

/-- C17: for every non-null text, `SetCurrentMap` stores its first
min(length, 127) characters in `szMap` and `SetGameMode` its first
min(length, 63) characters in `szGameMode`; with the terminating NUL the
stored text fits the buffer of 128, respectively 64, bytes. Every other
metadata field, and every other part of the state, is left as it was. -/
theorem setters_store_truncated (text : String) (s : State) :
    SetCurrentMap (some text) s
        = { s with s_Metadata := { s.s_Metadata with szMap := ⟨text.data.take 127⟩ } }
    ∧ (SetCurrentMap (some text) s).s_Metadata.szMap.data = text.data.take (min text.data.length 127)
    ∧ (SetCurrentMap (some text) s).s_Metadata.szMap.data.length = min text.data.length 127
    ∧ (SetCurrentMap (some text) s).s_Metadata.szMap.data.length + 1 ≤ 128
    ∧ SetGameMode (some text) s
        = { s with s_Metadata := { s.s_Metadata with szGameMode := ⟨text.data.take 63⟩ } }
    ∧ (SetGameMode (some text) s).s_Metadata.szGameMode.data
        = text.data.take (min text.data.length 63)
    ∧ (SetGameMode (some text) s).s_Metadata.szGameMode.data.length = min text.data.length 63
    ∧ (SetGameMode (some text) s).s_Metadata.szGameMode.data.length + 1 ≤ 64 := by
  have hmap : (SetCurrentMap (some text) s).s_Metadata.szMap.data = text.data.take 127 := rfl
  have hmode : (SetGameMode (some text) s).s_Metadata.szGameMode.data = text.data.take 63 := rfl
  refine ⟨rfl, ?_, ?_, ?_, rfl, ?_, ?_, ?_⟩
  · rw [hmap]
    rcases Nat.le_total text.data.length 127 with h | h
    · rw [Nat.min_eq_left h, List.take_of_length_le h, List.take_of_length_le (Nat.le_refl _)]
    · rw [Nat.min_eq_right h]
  · rw [hmap, List.length_take, Nat.min_comm]
  · rw [hmap, List.length_take]; omega
  · rw [hmode]
    rcases Nat.le_total text.data.length 63 with h | h
    · rw [Nat.min_eq_left h, List.take_of_length_le h, List.take_of_length_le (Nat.le_refl _)]
    · rw [Nat.min_eq_right h]
  · rw [hmode, List.length_take, Nat.min_comm]
  · rw [hmode, List.length_take]; omega

/-! ### System information -/

/-- C16 as amended: `CollectSystemInfo` and `CollectMetadata` always return.
If `uname` fails `CollectSystemInfo` sets the OS description to
`Linux (unknown)`, otherwise to the text `<sysname> <release> <machine>` cut
to the 127 characters the field holds (the whole text when it is that short).
If `getrusage` fails `CollectMetadata` leaves the memory-usage field as it
found it: that is 0 when `Init` has zeroed the metadata and no collection has
succeeded since, and otherwise the value an earlier collection computed. When
`getrusage` succeeds the field is `ru_maxrss / 1024` converted to `int`. -/
theorem system_queries_fall_back (env : Env) (s : State) :
    (CollectSystemInfo env s).s_Metadata.szOS
        = (match env.uname with
           | some u => truncate 127 (u.sysname ++ " " ++ u.release ++ " " ++ u.machine)
           | none => "Linux (unknown)")
    ∧ (∀ u, env.uname = some u →
        (u.sysname ++ " " ++ u.release ++ " " ++ u.machine).data.length ≤ 127 →
        (CollectSystemInfo env s).s_Metadata.szOS
          = u.sysname ++ " " ++ u.release ++ " " ++ u.machine)
    ∧ (CollectMetadata env s).s_Metadata.nMemoryUsageMB
        = (match env.maxrss with
           | some ru_maxrss => toInt32 ((ru_maxrss / 1024 : Nat) : Int)
           | none => s.s_Metadata.nMemoryUsageMB)
    ∧ (∀ (env0 : Env) (s0 : State), s0.s_bInitialized = false → env.maxrss = none →
        (CollectMetadata env (Init env0 s0)).s_Metadata.nMemoryUsageMB = 0) := by
  have hmem : (CollectMetadata env s).s_Metadata.nMemoryUsageMB
        = (match env.maxrss with
           | some ru_maxrss => toInt32 ((ru_maxrss / 1024 : Nat) : Int)
           | none => s.s_Metadata.nMemoryUsageMB) := by
    unfold CollectMetadata GenerateCrashID
    cases env.maxrss <;> rfl
  refine ⟨?_, ?_, hmem, ?_⟩
  · unfold CollectSystemInfo
    cases env.uname <;> rfl
  · intro u hu hlen
    unfold CollectSystemInfo
    rw [hu]
    exact truncate_of_length_le 127 _ hlen
  · intro env0 s0 h0 hnone
    have h1 : (CollectMetadata env (Init env0 s0)).s_Metadata.nMemoryUsageMB
        = (Init env0 s0).s_Metadata.nMemoryUsageMB := by
      unfold CollectMetadata GenerateCrashID
      rw [hnone]
    rw [h1]
    unfold Init
    by_cases he : s0.sv_crashreporting_enabled = 0 <;>
      simp [h0, he, Msg, ServerCrashMetadata_t.zero, CollectSystemInfo] <;>
      cases env0.uname <;> rfl

/-- C16, the claim as stated fails: after a collection that measured 200 MB
(the one `TestCrash` does), a run of the handler in which `getrusage` fails
leaves 200 in the memory-usage field and writes `Memory: 200 MB`, not the
default 0 the field had after `Init`. And when the three texts of `uname`
together exceed 127 characters the OS description is not the whole text
`<sysname> <release> <machine>`. -/
theorem failed_rusage_keeps_earlier_value :
    sampleRunning.s_Metadata.nMemoryUsageMB = 0
    ∧ (TestCrash sampleEnv sampleRunning).s_Metadata.nMemoryUsageMB = 200
    ∧ sampleEnvNoRusage.maxrss = none
    ∧ (SignalHandler sampleEnvNoRusage SIGSEGV (some 0)
        (TestCrash sampleEnv sampleRunning)).s_Metadata.nMemoryUsageMB = 200
    ∧ reportItem 10 (SignalHandler sampleEnvNoRusage SIGSEGV (some 0)
        (TestCrash sampleEnv sampleRunning)) = some "Memory: 200 MB\n"
    ∧ (CollectSystemInfo { sampleEnv with uname := some longUtsname } sampleRunning).s_Metadata.szOS
        ≠ longUtsname.sysname ++ " " ++ longUtsname.release ++ " " ++ longUtsname.machine := by
  decide

/-! ### Trailer of the report -/

theorem startsWith_append (start rest : String) : startsWith start (start ++ rest) = true := by
  simp [startsWith, String.data_append]

theorem addr2lines_append (a b : List String) :
    addr2lines (a ++ b) = addr2lines a ++ addr2lines b := by
  simp [addr2lines]

theorem addr2lines_frameLoop (env : Env) (ppSymbols : Nat → String) (frames : List Nat) :
    ∀ i : Nat, addr2lines (frameLoop env ppSymbols i frames) = [] := by
  induction frames with
  | nil => intro i; rfl
  | cons addr rest ih =>
    intro i
    rw [frameLoop, addr2lines_append, ih (i + 1), List.append_nil]
    unfold frameEntry
    cases env.dladdr addr with
    | none => rfl
    | some dlInfo =>
      rcases dlInfo with ⟨fname, fbase, _ | sname, saddr⟩
      · rfl
      · rfl

theorem addr2lineLoop_eq_filterMap (env : Env) (frames : List Nat) :
    addr2lineLoop env frames = frames.filterMap (addr2lineFor env) := by
  induction frames with
  | nil => rfl
  | cons addr rest ih =>
    rw [addr2lineLoop, ih, List.filterMap_cons]
    unfold addr2lineFor
    cases env.dladdr addr with
    | none => rfl
    | some dlInfo =>
      rcases dlInfo with ⟨_ | fname, fbase, sname, saddr⟩
      · rfl
      · rfl

theorem addr2lines_filterMap (env : Env) (frames : List Nat) :
    addr2lines (frames.filterMap (addr2lineFor env)) = frames.filterMap (addr2lineFor env) := by
  unfold addr2lines
  rw [List.filter_eq_self]
  intro item hitem
  rw [List.mem_filterMap] at hitem
  obtain ⟨addr, _, haddr⟩ := hitem
  unfold addr2lineFor at haddr
  cases hd : env.dladdr addr with
  | none => rw [hd] at haddr; cases haddr
  | some dlInfo =>
    rw [hd] at haddr
    rcases dlInfo with ⟨_ | fname, fbase, sname, saddr⟩
    · cases haddr
    · simp only [Option.some.injEq] at haddr
      rw [← haddr]
      simp only [String.append_assoc, startsWith_append]

theorem addr2lines_reportText (env : Env) (m : ServerCrashMetadata_t) (sig : String)
    (addr : Nat) (frames : List Nat) :
    addr2lines (reportText env m sig addr frames) = frames.filterMap (addr2lineFor env) := by
  have h1 : addr2lines reportHeader = [] := rfl
  have h2 : addr2lines (reportMetadata m) = [] := rfl
  have h3 : addr2lines (reportCrashInfo sig addr) = [] := rfl
  have h4 : addr2lines (reportStackTrace env frames) = [] := by
    unfold reportStackTrace
    rw [addr2lines_append]
    cases env.backtrace_symbols with
    | none => rfl
    | some ppSymbols =>
      show addr2lines _ ++ addr2lines (frameLoop env ppSymbols 0 frames) = []
      rw [addr2lines_frameLoop, List.append_nil]
      rfl
  unfold reportText
  rw [addr2lines_append, addr2lines_append, addr2lines_append, addr2lines_append, h1, h2, h3, h4]
  unfold reportTrailer
  rw [addr2lines_append, addr2lines_append, addr2lineLoop_eq_filterMap, addr2lines_filterMap]
  have h5 : addr2lines [ "\n" ++ dashRule ++ "\n",
      "\nTo get source file and line numbers, run these commands:\n",
      "(Requires debug symbols - build with -g flag)\n\n" ] = [] := rfl
  have h6 : addr2lines [ "\n" ++ bannerRule ++ "\n", "End of crash report\n",
      bannerRule ++ "\n" ] = [] := rfl
  rw [h5, h6]
  simp

theorem fmt_tx_of_le (a b : Nat) (hle : b ≤ a) (hlt : a < 2 ^ 64) :
    fmt_tx ((a : Int) - (b : Int)) = hexDigits (a - b) := by
  unfold fmt_tx
  have h : (((a : Int) - (b : Int)) % 2 ^ 64).toNat = a - b := by
    norm_num at hlt ⊢
    omega
  rw [h]

/-- C13: for every captured stack, the `addr2line` command lines of a report
written by `WriteCrashReport` are, in frame order, exactly one line for each
captured frame for which `dladdr` succeeds with a module path, and none for
the frames for which it fails or gives no module path. They stand in the
trailer between its three heading lines and the closing banner. The line of a
frame is `addr2line -e <module> -f -C 0x<offset>` where the offset is the
frame address minus the load base address of the module, in hexadecimal. -/
theorem WriteCrashReport_addr2line_commands (env : Env) (stack : List Nat) (sig : String)
    (addr : Nat) (s : State)
    (hopen : (env.canOpen (primaryPath (env.localtime env.time))
               || env.canOpen (fallbackPath (env.localtime env.time))) = true) :
    ∃ report front, lastReport (WriteCrashReport env stack sig addr s).2 = some report
      ∧ addr2lines report
          = (backtrace (env.raWriteCrashReport :: stack) MAX_STACK_FRAMES).filterMap
              (addr2lineFor env)
      ∧ report = front
          ++ [ "\n" ++ dashRule ++ "\n",
               "\nTo get source file and line numbers, run these commands:\n",
               "(Requires debug symbols - build with -g flag)\n\n" ]
          ++ (backtrace (env.raWriteCrashReport :: stack) MAX_STACK_FRAMES).filterMap
              (addr2lineFor env)
          ++ [ "\n" ++ bannerRule ++ "\n", "End of crash report\n", bannerRule ++ "\n" ]
      ∧ addr2lines front = []
      ∧ (∀ (a : Nat) (dlInfo : Dl_info) (fname : String),
          env.dladdr a = some dlInfo → dlInfo.dli_fname = some fname →
          dlInfo.dli_fbase ≤ a → a < 2 ^ 64 →
          addr2lineFor env a
            = some ("addr2line -e " ++ fname ++ " -f -C 0x"
                ++ hexDigits (a - dlInfo.dli_fbase) ++ "\n"))
      ∧ (∀ a : Nat, env.dladdr a = none → addr2lineFor env a = none)
      ∧ (∀ (a : Nat) (dlInfo : Dl_info),
          env.dladdr a = some dlInfo → dlInfo.dli_fname = none → addr2lineFor env a = none) := by
  refine ⟨_, reportHeader ++ reportMetadata s.s_Metadata ++ reportCrashInfo sig addr
      ++ reportStackTrace env (backtrace (env.raWriteCrashReport :: stack) MAX_STACK_FRAMES),
    WriteCrashReport_lastReport env stack sig addr s hopen,
    addr2lines_reportText env s.s_Metadata sig addr _, ?_, ?_, ?_, ?_, ?_⟩
  · unfold reportText reportTrailer
    rw [addr2lineLoop_eq_filterMap]
    simp only [List.append_assoc]
  · have h1 : addr2lines reportHeader = [] := rfl
    have h2 : addr2lines (reportMetadata s.s_Metadata) = [] := rfl
    have h3 : addr2lines (reportCrashInfo sig addr) = [] := rfl
    have h4 : addr2lines (reportStackTrace env
        (backtrace (env.raWriteCrashReport :: stack) MAX_STACK_FRAMES)) = [] := by
      unfold reportStackTrace
      rw [addr2lines_append]
      cases env.backtrace_symbols with
      | none => rfl
      | some ppSymbols =>
        show addr2lines _ ++ addr2lines (frameLoop env ppSymbols 0 _) = []
        rw [addr2lines_frameLoop, List.append_nil]
        rfl
    rw [addr2lines_append, addr2lines_append, addr2lines_append, h1, h2, h3, h4]
    rfl
  · intro a dlInfo fname hd hf hle hlt
    unfold addr2lineFor
    rw [hd]
    simp only [hf]
    rw [fmt_tx_of_le a dlInfo.dli_fbase hle hlt]
  · intro a hd
    unfold addr2lineFor
    rw [hd]
  · intro a dlInfo hd hf
    unfold addr2lineFor
    rw [hd]
    simp only [hf]

set_option maxRecDepth 100000 in
theorem WriteCrashReport_addr2line_commands_witness :
    (sampleEnvModules.canOpen (primaryPath (sampleEnvModules.localtime sampleEnvModules.time))
        || sampleEnvModules.canOpen
            (fallbackPath (sampleEnvModules.localtime sampleEnvModules.time))) = true
    ∧ ∃ report, lastReport (WriteCrashReport sampleEnvModules
          (sampleEnvModules.raSignalHandler
            :: (sampleEnvModules.sigFrames ++ sampleEnvModules.faultStack))
          "SIGSEGV (Segmentation Fault)" 0 sampleRunning).2 = some report
      ∧ addr2lines report
          = [ "addr2line -e /lib/libc.so.6 -f -C 0x42520\n",
              "addr2line -e ./srcds_linux -f -C 0x2000\n",
              "addr2line -e ./srcds_linux -f -C 0x3000\n" ] :=
  ⟨by decide,
   match WriteCrashReport_addr2line_commands sampleEnvModules
       (sampleEnvModules.raSignalHandler
         :: (sampleEnvModules.sigFrames ++ sampleEnvModules.faultStack))
       "SIGSEGV (Segmentation Fault)" 0 sampleRunning (by decide) with
   | ⟨report, _, h1, h2, _⟩ => ⟨report, h1, h2.trans rfl⟩⟩

/-! ### Order of the sections -/

theorem frameLoop_items (env : Env) (ppSymbols : Nat → String) (frames : List Nat) :
    ∀ i : Nat, ∀ item ∈ frameLoop env ppSymbols i frames,
      isFrameEntry item = true ∨ startsWith "    at " item = true := by
  induction frames with
  | nil => intro i item h; cases h
  | cons addr rest ih =>
    intro i item h
    rw [frameLoop, List.mem_append] at h
    rcases h with h | h
    · unfold frameEntry at h
      cases hd : env.dladdr addr with
      | none =>
        rw [hd] at h
        simp only [List.mem_singleton] at h
        rw [h]; exact Or.inl rfl
      | some dlInfo =>
        rw [hd] at h
        rcases dlInfo with ⟨fname, fbase, _ | sname, saddr⟩
        · simp only [List.mem_singleton] at h
          rw [h]; exact Or.inl rfl
        · simp only [List.mem_cons, List.mem_singleton, List.not_mem_nil, or_false] at h
          rcases h with h | h
          · rw [h]; exact Or.inl rfl
          · rw [h]; exact Or.inr (by simp only [String.append_assoc, startsWith_append])
    · exact ih (i + 1) item h

theorem reportText_layout (env : Env) (m : ServerCrashMetadata_t) (sig : String) (addr : Nat)
    (frames : List Nat) :
    reportText env m sig addr frames
      = expectedLayout m sig addr frames.length
          (match env.backtrace_symbols with
           | some ppSymbols => frameLoop env ppSymbols 0 frames
           | none => [ "Failed to get symbol names\n" ])
          (frames.filterMap (addr2lineFor env)) := by
  unfold reportText expectedLayout reportHeader reportMetadata reportCrashInfo reportStackTrace
    reportTrailer
  rw [addr2lineLoop_eq_filterMap]
  simp only [List.append_assoc, List.cons_append, List.nil_append]

/-- C15: every report written by `WriteCrashReport` has its sections in this
fixed order: the three lines of the header banner; the metadata lines
`Crash ID`, `Version`, `Timestamp`, `Map`, `Game Mode`, `Players`, `Uptime`,
`Memory`, `OS`, each as `Key: value`; the `Signal` line, then the
`Fault Address` line; the stack trace, made of its heading and of a body in
which every item is a numbered frame entry or the module line that follows
one (or which is the single line `Failed to get symbol names` when
`backtrace_symbols` returned NULL); and the trailer, made of its heading, the
`addr2line` commands and the end-of-report banner. -/
theorem WriteCrashReport_sections_in_order (env : Env) (stack : List Nat) (sig : String)
    (addr : Nat) (s : State)
    (hopen : (env.canOpen (primaryPath (env.localtime env.time))
               || env.canOpen (fallbackPath (env.localtime env.time))) = true) :
    ∃ report stackBody commands,
      lastReport (WriteCrashReport env stack sig addr s).2 = some report
      ∧ report = expectedLayout s.s_Metadata sig addr
          (backtrace (env.raWriteCrashReport :: stack) MAX_STACK_FRAMES).length
          stackBody commands
      ∧ (∀ item ∈ stackBody,
          isFrameEntry item = true ∨ startsWith "    at " item = true
            ∨ (env.backtrace_symbols = none ∧ item = "Failed to get symbol names\n"))
      ∧ (∀ item ∈ commands, startsWith "addr2line -e " item = true) := by
  refine ⟨_, _, _, WriteCrashReport_lastReport env stack sig addr s hopen,
    reportText_layout env s.s_Metadata sig addr _, ?_, ?_⟩
  · intro item hitem
    cases hsym : env.backtrace_symbols with
    | none =>
      rw [hsym] at hitem
      simp only [List.mem_singleton] at hitem
      exact Or.inr (Or.inr ⟨rfl, hitem⟩)
    | some ppSymbols =>
      rw [hsym] at hitem
      rcases frameLoop_items env ppSymbols _ 0 item hitem with h | h
      · exact Or.inl h
      · exact Or.inr (Or.inl h)
  · intro item hitem
    have h := addr2lines_filterMap env
      (backtrace (env.raWriteCrashReport :: stack) MAX_STACK_FRAMES)
    unfold addr2lines at h
    rw [List.filter_eq_self] at h
    exact h item hitem

theorem WriteCrashReport_sections_in_order_witness :
    (sampleEnvModules.canOpen (primaryPath (sampleEnvModules.localtime sampleEnvModules.time))
        || sampleEnvModules.canOpen
            (fallbackPath (sampleEnvModules.localtime sampleEnvModules.time))) = true
    ∧ ∃ report stackBody commands,
      lastReport (WriteCrashReport sampleEnvModules [4199680, 4202496]
          "SIGSEGV (Segmentation Fault)" 0 sampleRunning).2 = some report
      ∧ report = expectedLayout sampleRunning.s_Metadata "SIGSEGV (Segmentation Fault)" 0
          (backtrace (sampleEnvModules.raWriteCrashReport :: [4199680, 4202496])
            MAX_STACK_FRAMES).length
          stackBody commands
      ∧ (∀ item ∈ stackBody,
          isFrameEntry item = true ∨ startsWith "    at " item = true
            ∨ (sampleEnvModules.backtrace_symbols = none
                ∧ item = "Failed to get symbol names\n"))
      ∧ (∀ item ∈ commands, startsWith "addr2line -e " item = true) :=
  ⟨by decide,
   WriteCrashReport_sections_in_order sampleEnvModules [4199680, 4202496]
     "SIGSEGV (Segmentation Fault)" 0 sampleRunning (by decide)⟩

/-! ### Digits printed by the conversions -/

theorem digitChar_mem_hexChars (d : Nat) (h : d < 16) : Nat.digitChar d ∈ hexChars := by
  interval_cases d <;> decide

theorem digitChar_mem_decChars (d : Nat) (h : d < 10) : Nat.digitChar d ∈ decChars := by
  interval_cases d <;> decide

theorem digitValue_digitChar (d : Nat) (h : d < 16) : digitValue (Nat.digitChar d) = d := by
  interval_cases d <;> decide

theorem valueOfDigits_append_singleton (b : Nat) (xs : List Char) (c : Char) :
    valueOfDigits b (xs ++ [c]) = valueOfDigits b xs * b + digitValue c := by
  simp [valueOfDigits, List.foldl_append]

/-- What `Nat.toDigitsCore` puts in front of the digits it was given, with
enough fuel: digits of the base that denote the number, at most `e` of them
when the number is below the `e`-th power of the base. -/
theorem toDigitsCore_spec (b : Nat) (hb : 1 < b) (hb16 : b ≤ 16) :
    ∀ (fuel n : Nat) (ds : List Char), n < fuel →
      ∃ xs, Nat.toDigitsCore b fuel n ds = xs ++ ds
        ∧ (∀ c ∈ xs, ∃ d, d < b ∧ c = Nat.digitChar d)
        ∧ valueOfDigits b xs = n
        ∧ (∀ e, 0 < e → n < b ^ e → xs.length ≤ e) := by
  intro fuel
  induction fuel with
  | zero => intro n ds h; omega
  | succ fuel ih =>
    intro n ds hn
    have hmod : n % b < b := Nat.mod_lt n (by omega)
    by_cases h0 : n / b = 0
    · refine ⟨[Nat.digitChar (n % b)], ?_, ?_, ?_, ?_⟩
      · simp [Nat.toDigitsCore, h0]
      · intro c hc
        simp only [List.mem_singleton] at hc
        exact ⟨n % b, hmod, hc⟩
      · have hlt : n < b := (Nat.div_eq_zero_iff (by omega)).mp h0
        have hv : valueOfDigits b [Nat.digitChar (n % b)] = 0 * b + digitValue (Nat.digitChar (n % b)) :=
          rfl
        rw [hv, digitValue_digitChar (n % b) (by omega), Nat.mod_eq_of_lt hlt]
        omega
      · intro e he _
        simpa using he
    · have hdiv : n / b < fuel := by
        have : n / b < n := Nat.div_lt_self (by
          rcases Nat.eq_zero_or_pos n with h | h
          · rw [h] at h0; simp at h0
          · exact h) hb
        omega
      obtain ⟨xs, hxs, hdig, hval, hlen⟩ := ih (n / b) (Nat.digitChar (n % b) :: ds) hdiv
      refine ⟨xs ++ [Nat.digitChar (n % b)], ?_, ?_, ?_, ?_⟩
      · simp [Nat.toDigitsCore, h0, hxs]
      · intro c hc
        rw [List.mem_append] at hc
        rcases hc with hc | hc
        · exact hdig c hc
        · simp only [List.mem_singleton] at hc
          exact ⟨n % b, hmod, hc⟩
      · rw [valueOfDigits_append_singleton, hval, digitValue_digitChar (n % b) (by omega)]
        exact Nat.div_add_mod' n b
      · intro e he hlt
        have he2 : 2 ≤ e := by
          by_contra hcon
          have he1 : e = 1 := by omega
          rw [he1, pow_one] at hlt
          exact h0 (Nat.div_eq_of_lt hlt)
        have hlt' : n / b < b ^ (e - 1) := by
          rw [Nat.div_lt_iff_lt_mul (by omega)]
          have : b ^ (e - 1) * b = b ^ e := by
            rw [← pow_succ]; congr 1; omega
          rw [this]; exact hlt
        have := hlen (e - 1) (by omega) hlt'
        simp only [List.length_append, List.length_singleton]
        omega

theorem toDigits_spec (b : Nat) (hb : 1 < b) (hb16 : b ≤ 16) (n : Nat) :
    (∀ c ∈ Nat.toDigits b n, ∃ d, d < b ∧ c = Nat.digitChar d)
    ∧ valueOfDigits b (Nat.toDigits b n) = n
    ∧ (∀ e, 0 < e → n < b ^ e → (Nat.toDigits b n).length ≤ e) := by
  obtain ⟨xs, hxs, hdig, hval, hlen⟩ := toDigitsCore_spec b hb hb16 (n + 1) n [] (by omega)
  have h : Nat.toDigits b n = xs := by
    unfold Nat.toDigits
    rw [hxs, List.append_nil]
  rw [h]
  exact ⟨hdig, hval, hlen⟩

theorem valueOfDigits_zeros (b k : Nat) (xs : List Char) :
    valueOfDigits b (List.replicate k '0' ++ xs) = valueOfDigits b xs := by
  unfold valueOfDigits
  rw [List.foldl_append]
  have h : List.foldl (fun acc c => acc * b + digitValue c) 0 (List.replicate k '0') = 0 := by
    induction k with
    | zero => rfl
    | succ k ih =>
      rw [List.replicate_succ, List.foldl_cons]
      have hz : digitValue '0' = 0 := by decide
      have : 0 * b + digitValue '0' = 0 := by rw [hz]; omega
      rw [this, ih]
  rw [h]

/-- The conversion `%0<w>x` of a value below `16 ^ w`: exactly `w` lowercase
hexadecimal digits that denote the value. -/
theorem fmt_0x_spec (w n : Nat) (hw : 0 < w) (hn : n < 16 ^ w) :
    (fmt_0x w n).data.length = w
    ∧ (∀ c ∈ (fmt_0x w n).data, c ∈ hexChars)
    ∧ valueOfDigits 16 (fmt_0x w n).data = n := by
  obtain ⟨hdig, hval, hlen⟩ := toDigits_spec 16 (by omega) (by omega) n
  have hl := hlen w hw hn
  have hdata : (fmt_0x w n).data
      = List.replicate (w - (Nat.toDigits 16 n).length) '0' ++ Nat.toDigits 16 n := rfl
  rw [hdata]
  refine ⟨?_, ?_, ?_⟩
  · simp only [List.length_append, List.length_replicate]; omega
  · intro c hc
    rw [List.mem_append] at hc
    rcases hc with hc | hc
    · rw [List.eq_of_mem_replicate hc]; decide
    · obtain ⟨d, hd, hcd⟩ := hdig c hc
      rw [hcd]; exact digitChar_mem_hexChars d hd
  · rw [valueOfDigits_zeros, hval]

/-- The conversion `%0<w>d` of a value from 0 to below `10 ^ w`: exactly `w`
decimal digits that denote the value. -/
theorem fmt_0d_spec (w : Nat) (n : Int) (hw : 0 < w) (h0 : 0 ≤ n) (hn : n < 10 ^ w) :
    (fmt_0d w n).data.length = w
    ∧ (∀ c ∈ (fmt_0d w n).data, c ∈ decChars)
    ∧ (valueOfDigits 10 (fmt_0d w n).data : Int) = n := by
  obtain ⟨hdig, hval, hlen⟩ := toDigits_spec 10 (by omega) (by omega) n.natAbs
  have hnat : n.natAbs < 10 ^ w := by
    have : ((n.natAbs : Nat) : Int) < ((10 ^ w : Nat) : Int) := by
      rw [Int.natAbs_of_nonneg h0]; push_cast; exact hn
    exact_mod_cast this
  have hl := hlen w hw hnat
  have hdata : (fmt_0d w n).data
      = List.replicate (w - (Nat.toDigits 10 n.natAbs).length) '0'
          ++ Nat.toDigits 10 n.natAbs := by
    unfold fmt_0d
    rw [if_neg (by omega)]
    rfl
  rw [hdata]
  refine ⟨?_, ?_, ?_⟩
  · simp only [List.length_append, List.length_replicate]; omega
  · intro c hc
    rw [List.mem_append] at hc
    rcases hc with hc | hc
    · rw [List.eq_of_mem_replicate hc]; decide
    · obtain ⟨d, hd, hcd⟩ := hdig c hc
      rw [hcd]; exact digitChar_mem_decChars d hd
  · rw [valueOfDigits_zeros, hval]
    exact Int.natAbs_of_nonneg h0

/-! ### Crash identifier -/

/-- C18: for every time value, of which `GenerateCrashID` prints the low 32
bits, and every non-negative result of `rand`, the crash ID is `srv_`, then
exactly 8 lowercase hexadecimal digits that denote the 32-bit time, then `_`,
then exactly 4 lowercase hexadecimal digits that denote `rand() % 0xFFFF`. It
is 17 characters long, so with its terminating NUL it fits the 40 bytes of
`szCrashID` and is stored whole. The suffix denotes a value from 0 to 0xFFFE
and is therefore never `ffff`. No other part of the state changes. -/
theorem GenerateCrashID_format (env : Env) (s : State) :
    (GenerateCrashID env s).s_Metadata.szCrashID
        = "srv_" ++ fmt_0x 8 (env.time % 2 ^ 32).toNat ++ "_" ++ fmt_0x 4 (env.rand % 0xFFFF)
    ∧ (fmt_0x 8 (env.time % 2 ^ 32).toNat).data.length = 8
    ∧ (∀ c ∈ (fmt_0x 8 (env.time % 2 ^ 32).toNat).data, c ∈ hexChars)
    ∧ valueOfDigits 16 (fmt_0x 8 (env.time % 2 ^ 32).toNat).data = (env.time % 2 ^ 32).toNat
    ∧ (fmt_0x 4 (env.rand % 0xFFFF)).data.length = 4
    ∧ (∀ c ∈ (fmt_0x 4 (env.rand % 0xFFFF)).data, c ∈ hexChars)
    ∧ valueOfDigits 16 (fmt_0x 4 (env.rand % 0xFFFF)).data = env.rand % 0xFFFF
    ∧ env.rand % 0xFFFF ≤ 0xFFFE
    ∧ fmt_0x 4 (env.rand % 0xFFFF) ≠ "ffff"
    ∧ (GenerateCrashID env s).s_Metadata.szCrashID.data.length = 17
    ∧ (GenerateCrashID env s).s_Metadata.szCrashID.data.length + 1 ≤ 40
    ∧ GenerateCrashID env s
        = { s with s_Metadata := { s.s_Metadata with
              szCrashID := (GenerateCrashID env s).s_Metadata.szCrashID } } := by
  have htime : (env.time % 2 ^ 32).toNat < 16 ^ 8 := by
    have h1 : 0 ≤ env.time % 2 ^ 32 := Int.emod_nonneg _ (by norm_num)
    have h2 : env.time % 2 ^ 32 < 2 ^ 32 := Int.emod_lt_of_pos _ (by norm_num)
    norm_num at h2 ⊢
    omega
  have hrand : env.rand % 0xFFFF < 16 ^ 4 := by
    have := Nat.mod_lt env.rand (show 0 < 0xFFFF by norm_num)
    norm_num at this ⊢
    omega
  obtain ⟨t1, t2, t3⟩ := fmt_0x_spec 8 (env.time % 2 ^ 32).toNat (by norm_num) htime
  obtain ⟨r1, r2, r3⟩ := fmt_0x_spec 4 (env.rand % 0xFFFF) (by norm_num) hrand
  have hlen : ("srv_" ++ fmt_0x 8 (env.time % 2 ^ 32).toNat ++ "_"
      ++ fmt_0x 4 (env.rand % 0xFFFF)).data.length = 17 := by
    simp only [String.data_append, List.length_append, t1, r1]
    rfl
  have hid : (GenerateCrashID env s).s_Metadata.szCrashID
      = "srv_" ++ fmt_0x 8 (env.time % 2 ^ 32).toNat ++ "_" ++ fmt_0x 4 (env.rand % 0xFFFF) := by
    show V_snprintf 40 _ = _
    exact truncate_of_length_le 39 _ (by rw [hlen]; norm_num)
  refine ⟨hid, t1, t2, t3, r1, r2, r3, ?_, ?_, ?_, ?_, rfl⟩
  · have := Nat.mod_lt env.rand (show 0 < 0xFFFF by norm_num)
    omega
  · intro hff
    have hv : valueOfDigits 16 "ffff".data = 65535 := by decide
    rw [hff, hv] at r3
    have := Nat.mod_lt env.rand (show 0 < 0xFFFF by norm_num)
    omega
  · rw [hid, hlen]
  · rw [hid, hlen]; norm_num

/-! ### Names of the report files -/

theorem fmt_0d_isZeroPadded (w : Nat) (n : Int) (hw : 0 < w) (h0 : 0 ≤ n) (hn : n < 10 ^ w) :
    isZeroPadded w n (fmt_0d w n) :=
  fmt_0d_spec w n hw h0 hn

/-- The two file names built from calendar fields in range: the date and time
digits, and no truncation by the buffer of 256 bytes. -/
theorem crash_paths_of_calendar (tm : Tm) (hcal : calendarInRange tm) :
    ∃ year mon mday hour min sec : String,
      isZeroPadded 4 (tm.tm_year + 1900) year
      ∧ isZeroPadded 2 (tm.tm_mon + 1) mon
      ∧ isZeroPadded 2 tm.tm_mday mday
      ∧ isZeroPadded 2 tm.tm_hour hour
      ∧ isZeroPadded 2 tm.tm_min min
      ∧ isZeroPadded 2 tm.tm_sec sec
      ∧ fallbackPath tm = "crash_" ++ year ++ mon ++ mday ++ "_" ++ hour ++ min ++ sec ++ ".log"
      ∧ primaryPath tm = "customfortress/crashes/" ++ fallbackPath tm
      ∧ (fallbackPath tm).data.length = 25
      ∧ (primaryPath tm).data.length = 48 := by
  obtain ⟨y0, y1, m0, m1, d0, d1, h0, h1, i0, i1, s0, s1⟩ := hcal
  have hy := fmt_0d_isZeroPadded 4 (tm.tm_year + 1900) (by norm_num) y0 (by norm_num; omega)
  have hm := fmt_0d_isZeroPadded 2 (tm.tm_mon + 1) (by norm_num) (by omega) (by norm_num; omega)
  have hd := fmt_0d_isZeroPadded 2 tm.tm_mday (by norm_num) (by omega) (by norm_num; omega)
  have hh := fmt_0d_isZeroPadded 2 tm.tm_hour (by norm_num) h0 (by norm_num; omega)
  have hi := fmt_0d_isZeroPadded 2 tm.tm_min (by norm_num) i0 (by norm_num; omega)
  have hs := fmt_0d_isZeroPadded 2 tm.tm_sec (by norm_num) s0 (by norm_num; omega)
  have hlen : ("crash_" ++ fmt_0d 4 (tm.tm_year + 1900) ++ fmt_0d 2 (tm.tm_mon + 1)
      ++ fmt_0d 2 tm.tm_mday ++ "_" ++ fmt_0d 2 tm.tm_hour ++ fmt_0d 2 tm.tm_min
      ++ fmt_0d 2 tm.tm_sec ++ ".log").data.length = 25 := by
    simp only [String.data_append, List.length_append, hy.1, hm.1, hd.1, hh.1, hi.1, hs.1]
    rfl
  have hfall : fallbackPath tm = "crash_" ++ fmt_0d 4 (tm.tm_year + 1900)
      ++ fmt_0d 2 (tm.tm_mon + 1) ++ fmt_0d 2 tm.tm_mday ++ "_" ++ fmt_0d 2 tm.tm_hour
      ++ fmt_0d 2 tm.tm_min ++ fmt_0d 2 tm.tm_sec ++ ".log" := by
    unfold fallbackPath V_snprintf
    exact truncate_of_length_le 255 _ (by rw [hlen]; norm_num)
  have hdir : CRASH_LOG_DIR ++ "/crash_" = "customfortress/crashes/" ++ "crash_" := by decide
  have hprim : primaryPath tm = "customfortress/crashes/" ++ fallbackPath tm := by
    rw [hfall]
    unfold primaryPath V_snprintf
    rw [hdir]
    simp only [String.append_assoc]
    apply truncate_of_length_le
    have h := hlen
    simp only [String.append_assoc] at h
    rw [String.data_append, List.length_append, h]
    decide
  refine ⟨_, _, _, _, _, _, hy, hm, hd, hh, hi, hs, hfall, hprim, ?_, ?_⟩
  · rw [hfall, hlen]
  · rw [hprim, String.data_append, List.length_append, hfall, hlen]
    rfl

/-- C12 as amended: `WriteCrashReport` first tries the primary path and, if
that cannot be opened, the fallback path, both built from the calendar fields
that `localtime` gives for the crash time, that is the fields of the local
time zone of the server and not those of UTC. For fields in the calendar
ranges the fallback path is `crash_<YYYYMMDD>_<HHMMSS>.log`, with the year in
four and month, day, hour, minute and second in two zero-padded decimal
digits each, and the primary path is `customfortress/crashes/` followed by
exactly that name; neither is cut by the 256-byte buffer. -/
theorem WriteCrashReport_paths_from_localtime (env : Env) (stack : List Nat) (sig : String)
    (addr : Nat) (s : State) (hcal : calendarInRange (env.localtime env.time)) :
    (WriteCrashReport env stack sig addr s).2.calls
        = s.calls ++ [Call.WriteCrashReport, Call.mkdir CRASH_LOG_DIR]
          ++ (if env.canOpen (primaryPath (env.localtime env.time)) then
                [Call.fopen (primaryPath (env.localtime env.time)) true]
              else
                [Call.fopen (primaryPath (env.localtime env.time)) false,
                 Call.fopen (fallbackPath (env.localtime env.time))
                   (env.canOpen (fallbackPath (env.localtime env.time)))])
    ∧ ∃ year mon mday hour min sec : String,
      isZeroPadded 4 ((env.localtime env.time).tm_year + 1900) year
      ∧ isZeroPadded 2 ((env.localtime env.time).tm_mon + 1) mon
      ∧ isZeroPadded 2 (env.localtime env.time).tm_mday mday
      ∧ isZeroPadded 2 (env.localtime env.time).tm_hour hour
      ∧ isZeroPadded 2 (env.localtime env.time).tm_min min
      ∧ isZeroPadded 2 (env.localtime env.time).tm_sec sec
      ∧ fallbackPath (env.localtime env.time)
          = "crash_" ++ year ++ mon ++ mday ++ "_" ++ hour ++ min ++ sec ++ ".log"
      ∧ primaryPath (env.localtime env.time)
          = "customfortress/crashes/" ++ fallbackPath (env.localtime env.time)
      ∧ (fallbackPath (env.localtime env.time)).data.length = 25
      ∧ (primaryPath (env.localtime env.time)).data.length = 48 :=
  ⟨(WriteCrashReport_outcome env stack sig addr s).1,
   crash_paths_of_calendar (env.localtime env.time) hcal⟩

theorem WriteCrashReport_paths_from_localtime_witness :
    calendarInRange (sampleEnvCET.localtime sampleEnvCET.time)
    ∧ (WriteCrashReport sampleEnvCET [] "SIGSEGV (Segmentation Fault)" 0 sampleRunning).2.calls
        = sampleRunning.calls ++ [Call.WriteCrashReport, Call.mkdir CRASH_LOG_DIR]
          ++ (if sampleEnvCET.canOpen (primaryPath (sampleEnvCET.localtime sampleEnvCET.time))
              then [Call.fopen (primaryPath (sampleEnvCET.localtime sampleEnvCET.time)) true]
              else
                [Call.fopen (primaryPath (sampleEnvCET.localtime sampleEnvCET.time)) false,
                 Call.fopen (fallbackPath (sampleEnvCET.localtime sampleEnvCET.time))
                   (sampleEnvCET.canOpen
                     (fallbackPath (sampleEnvCET.localtime sampleEnvCET.time)))])
    ∧ fallbackPath (sampleEnvCET.localtime sampleEnvCET.time) = "crash_20231114_231320.log" :=
  ⟨by decide,
   (WriteCrashReport_paths_from_localtime sampleEnvCET [] "SIGSEGV (Segmentation Fault)" 0
     sampleRunning (by decide)).1,
   by decide⟩

/-- C12, the claim as stated fails: on a server whose local time is one hour
ahead of UTC, a crash at 2023-11-14 22:13:20 UTC is written to
`customfortress/crashes/crash_20231114_231320.log`, while the UTC calendar
fields of that time give `crash_20231114_221320.log`; the timestamp inside
the report is the UTC one. -/
theorem report_file_name_uses_local_time :
    utcCalendar sampleEnvCET.time = sampleTm
    ∧ (WriteCrashReport sampleEnvCET [] "SIGSEGV (Segmentation Fault)" 0 sampleRunning).2.calls
        = sampleRunning.calls
          ++ [Call.WriteCrashReport, Call.mkdir "customfortress/crashes",
              Call.fopen "customfortress/crashes/crash_20231114_231320.log" true]
    ∧ primaryPath (utcCalendar sampleEnvCET.time)
        = "customfortress/crashes/crash_20231114_221320.log"
    ∧ primaryPath (sampleEnvCET.localtime sampleEnvCET.time)
        ≠ primaryPath (utcCalendar sampleEnvCET.time)
    ∧ fallbackPath (sampleEnvCET.localtime sampleEnvCET.time)
        ≠ fallbackPath (utcCalendar sampleEnvCET.time)
    ∧ (SignalHandler sampleEnvCET SIGSEGV (some 0) sampleRunning).s_Metadata.szTimestamp
        = "2023-11-14 22:13:20 UTC" := by
  decide

/-! ### Crash identifier announced by the test command -/

/-- C14, evaluated at the failing input: the command `sv_crash_test` collects
the metadata before the fault and announces `Crash ID: srv_6553f100_3039` on
the console; the handler of the fault it raises collects the metadata again,
with the next value of `rand`, and the report carries
`Crash ID: srv_6553f100_d431`. `CollectMetadata`, and with it
`GenerateCrashID`, has run twice on this path, once before the crash was
detected. A fault that is not raised through `TestCrash` runs it once. -/
theorem TestCrash_announces_another_crash_id :
    "[ServerCrashHandler] Crash ID: srv_6553f100_3039\n"
        ∈ (CC_ServerCrashTest sampleEnv sampleEnvNextRand sampleRunning).console
    ∧ (TestCrash sampleEnv sampleRunning).s_Metadata.szCrashID = "srv_6553f100_3039"
    ∧ (TestCrash sampleEnv sampleRunning).calls.count Call.CollectMetadata = 1
    ∧ (TestCrash sampleEnv sampleRunning).calls.count Call.WriteCrashReport = 0
    ∧ reportItem 3 (CC_ServerCrashTest sampleEnv sampleEnvNextRand sampleRunning)
        = some "Crash ID: srv_6553f100_d431\n"
    ∧ (CC_ServerCrashTest sampleEnv sampleEnvNextRand sampleRunning).calls.count
        Call.CollectMetadata = 2
    ∧ (deliver sampleEnv SIGSEGV (some 0) sampleRunning).calls.count Call.CollectMetadata = 1 := by
  decide

/-! ### Language variable -/

theorem Q_stricmp_self (a : String) : Q_stricmp a a = 0 := by
  simp [Q_stricmp]

theorem Q_stricmp_ne_of_language (value lang : String)
    (hv : isLanguage value = false) (hl : isLanguage lang = true) :
    Q_stricmp lang value ≠ 0 ∧ lang ≠ value := by
  have hne : lang ≠ value := by
    intro h
    rw [h] at hl
    rw [hl] at hv
    cases hv
  refine ⟨?_, hne⟩
  intro h
  unfold Q_stricmp at h
  split at h
  · rename_i heq
    unfold isLanguage Q_stricmp at hv hl
    rw [heq] at hl
    rw [hl] at hv
    cases hv
  · cases h

theorem OnLocalizationLanguageChanged_of_language (env : LocEnv)
    (SetValue : String → LocState → Option LocState) (pOldValue : String) (s : LocState)
    (h : isLanguage s.cl_localization_language = true) :
    OnLocalizationLanguageChanged env SetValue pOldValue s
      = (if Q_stricmp s.cl_localization_language pOldValue ≠ 0 then
           some (LoadLocalizationLanguage env s.cl_localization_language
             { s with callbacks := s.callbacks + 1 })
         else some { s with callbacks := s.callbacks + 1 }) := by
  unfold OnLocalizationLanguageChanged
  have hv : ¬ (Q_stricmp s.cl_localization_language "english" ≠ 0
      ∧ Q_stricmp s.cl_localization_language "portuguese" ≠ 0) := by
    unfold isLanguage at h
    simp only [Bool.or_eq_true, decide_eq_true_eq] at h
    rintro ⟨h1, h2⟩
    rcases h with h | h
    · exact h1 h
    · exact h2 h
  rw [if_neg hv]

theorem OnLocalizationLanguageChanged_of_other (env : LocEnv)
    (SetValue : String → LocState → Option LocState) (pOldValue : String) (s : LocState)
    (h : isLanguage s.cl_localization_language = false) :
    OnLocalizationLanguageChanged env SetValue pOldValue s
      = SetValue "english"
          { s with callbacks := s.callbacks + 1,
                   console := s.console ++
                     [ "Invalid language '" ++ s.cl_localization_language
                         ++ "' in cl_localization_language. Using 'english'.\n" ] } := by
  unfold OnLocalizationLanguageChanged
  have hv : Q_stricmp s.cl_localization_language "english" ≠ 0
      ∧ Q_stricmp s.cl_localization_language "portuguese" ≠ 0 := by
    unfold isLanguage at h
    simp only [Bool.or_eq_false_iff, decide_eq_false_iff_not] at h
    exact h
  rw [if_pos hv]

theorem LoadLocalizationLanguage_frame (env : LocEnv) (lang : String) (s : LocState) :
    (LoadLocalizationLanguage env lang s).cl_localization_language = s.cl_localization_language
    ∧ (LoadLocalizationLanguage env lang s).loads = s.loads ++ [lang]
    ∧ (LoadLocalizationLanguage env lang s).callbacks = s.callbacks := by
  have hloop : ∀ (formats : List (String × String)) (acc : LocState × Bool),
      (formats.foldl (loadOneFile env lang) acc).1.cl_localization_language
          = acc.1.cl_localization_language
      ∧ (formats.foldl (loadOneFile env lang) acc).1.loads = acc.1.loads
      ∧ (formats.foldl (loadOneFile env lang) acc).1.callbacks = acc.1.callbacks := by
    intro formats
    induction formats with
    | nil => intro acc; exact ⟨rfl, rfl, rfl⟩
    | cons f rest ih =>
      intro acc
      rw [List.foldl_cons]
      obtain ⟨h1, h2, h3⟩ := ih (loadOneFile env lang acc f)
      rw [h1, h2, h3]
      unfold loadOneFile
      by_cases he : env.FileExists (V_snprintf MAX_PATH (f.1 ++ lang ++ f.2)) = true
      · by_cases ha : env.AddFile (V_snprintf MAX_PATH (f.1 ++ lang ++ f.2)) = true
        · simp [he, ha]
        · simp [he, ha]
      · simp [he]
  unfold LoadLocalizationLanguage
  by_cases hav : s.localizeAvailable = true
  · obtain ⟨h1, h2, h3⟩ := hloop g_pszLocalizationFiles
      ({ s with loads := s.loads ++ [lang], localizeFiles := [], localizeAvailable := true },
        false)
    simp only [hav, Bool.not_true, Bool.false_eq_true, if_false]
    generalize List.foldl (loadOneFile env lang)
      ({ s with loads := s.loads ++ [lang], localizeFiles := [], localizeAvailable := true },
        false)
      g_pszLocalizationFiles = r at h1 h2 h3 ⊢
    simp only at h1 h2 h3
    by_cases hb : r.2 = true <;>
      by_cases hf : env.FileExists "resource/valve_%language%.txt" = true <;>
      by_cases ha : env.AddFile "resource/valve_%language%.txt" = true <;>
      simp [hb, hf, ha, h1, h2, h3]
  · simp [hav]

theorem ConVar_SetValue_succ (env : LocEnv) (cb : Bool) (fuel : Nat) (value : String)
    (s : LocState) :
    ConVar_SetValue env cb (fuel + 1) value s
      = (if value ≠ s.cl_localization_language ∨ cb = true then
           OnLocalizationLanguageChanged env (ConVar_SetValue env cb fuel)
             s.cl_localization_language { s with cl_localization_language := value }
         else some { s with cl_localization_language := value }) := by
  rw [ConVar_SetValue]

/-- An assignment of a text that is one of the two languages: it is kept, the
callback runs at most once, and the language is loaded exactly when it differs
from the previous value ignoring case. -/
theorem ConVar_SetValue_of_language (env : LocEnv) (cb : Bool) (fuel : Nat) (value : String)
    (s : LocState) (hv : isLanguage value = true) :
    ∃ s', ConVar_SetValue env cb (fuel + 1) value s = some s'
      ∧ s'.cl_localization_language = value
      ∧ s'.callbacks ≤ s.callbacks + 1
      ∧ s'.loads = s.loads
          ++ (if Q_stricmp value s.cl_localization_language ≠ 0 then [value] else []) := by
  rw [ConVar_SetValue_succ]
  by_cases hfire : value ≠ s.cl_localization_language ∨ cb = true
  · rw [if_pos hfire, OnLocalizationLanguageChanged_of_language env _ _ _ hv]
    by_cases hd : Q_stricmp value s.cl_localization_language ≠ 0
    · obtain ⟨l1, l2, l3⟩ := LoadLocalizationLanguage_frame env value
        { s with cl_localization_language := value, callbacks := s.callbacks + 1 }
      simp only [hd, if_true, ne_eq, not_false_eq_true]
      exact ⟨_, rfl, l1, by rw [l3], l2⟩
    · simp only [hd, if_false, ne_eq, not_true_eq_false, not_false_eq_true]
      exact ⟨_, rfl, rfl, Nat.le_refl _, by simp⟩
  · rw [if_neg hfire]
    have heq : value = s.cl_localization_language := by
      by_contra hne
      exact hfire (Or.inl hne)
    refine ⟨_, rfl, rfl, by simp, ?_⟩
    have h0 : Q_stricmp value s.cl_localization_language = 0 := by
      rw [← heq]; exact Q_stricmp_self value
    simp [h0]

/-- C19: starting from a value of `cl_localization_language` that is one of
the two languages (as the default `english` is), every assignment of a text
to the variable returns, given room for two nested assignments, and leaves a
value equal to `english` or `portuguese` ignoring case: a valid text is kept,
any other text is replaced by `english`. The change callback is entered at
most twice, that is with at most one re-entry through its own `SetValue`.
`LoadLocalizationLanguage` is called at most once, with the assigned text
when that is a language that differs ignoring case from the previous value,
and with `english` when the assigned text is not a language: in both cases
with a valid language that differs ignoring case from the old value handed
to the callback. -/
theorem language_variable_stays_valid (env : LocEnv) (callbackOnUnchanged : Bool) (fuel : Nat)
    (value : String) (s : LocState) (hfuel : 2 ≤ fuel)
    (hinv : isLanguage s.cl_localization_language = true) :
    ∃ s', ConVar_SetValue env callbackOnUnchanged fuel value s = some s'
      ∧ isLanguage s'.cl_localization_language = true
      ∧ s'.cl_localization_language = (if isLanguage value = true then value else "english")
      ∧ s'.callbacks ≤ s.callbacks + 2
      ∧ s'.loads = s.loads
          ++ (if isLanguage value = true then
                (if Q_stricmp value s.cl_localization_language ≠ 0 then [value] else [])
              else ["english"])
      ∧ (isLanguage value = false → Q_stricmp "english" value ≠ 0)
      ∧ isLanguage "english" = true := by
  obtain ⟨f, rfl⟩ : ∃ f, fuel = f + 2 := ⟨fuel - 2, by omega⟩
  have heng : isLanguage "english" = true := by decide
  by_cases hv : isLanguage value = true
  · obtain ⟨s', h1, h2, h3, h4⟩ :=
      ConVar_SetValue_of_language env callbackOnUnchanged (f + 1) value s hv
    refine ⟨s', h1, by rw [h2]; exact hv, by rw [h2, if_pos hv], by omega, ?_, ?_, heng⟩
    · rw [h4, if_pos hv]
    · intro hcon; rw [hcon] at hv; cases hv
  · have hv' : isLanguage value = false := by
      cases h : isLanguage value
      · rfl
      · exact absurd h hv
    have hne : value ≠ s.cl_localization_language := by
      intro h
      rw [h] at hv'
      rw [hv'] at hinv
      cases hinv
    obtain ⟨hcmp, _⟩ := Q_stricmp_ne_of_language value "english" hv' heng
    rw [ConVar_SetValue_succ, if_pos (Or.inl hne),
      OnLocalizationLanguageChanged_of_other env _ _ _ hv']
    obtain ⟨s', h1, h2, h3, h4⟩ :=
      ConVar_SetValue_of_language env callbackOnUnchanged f "english"
        { s with cl_localization_language := value, callbacks := s.callbacks + 1,
                 console := s.console ++
                   [ "Invalid language '" ++ value
                       ++ "' in cl_localization_language. Using 'english'.\n" ] } heng
    refine ⟨s', h1, by rw [h2]; exact heng, by rw [h2, if_neg hv], ?_, ?_, fun _ => hcmp, heng⟩
    · simpa using h3
    · rw [h4, if_neg hv]
      simp only [hcmp, ne_eq, not_false_eq_true, if_true]

theorem language_variable_stays_valid_witness :
    2 ≤ 2
    ∧ isLanguage sampleClient.cl_localization_language = true
    ∧ ∃ s', ConVar_SetValue sampleLocEnv false 2 "klingon" sampleClient = some s'
      ∧ isLanguage s'.cl_localization_language = true
      ∧ s'.cl_localization_language = (if isLanguage "klingon" = true then "klingon" else "english")
      ∧ s'.callbacks ≤ sampleClient.callbacks + 2
      ∧ s'.loads = sampleClient.loads
          ++ (if isLanguage "klingon" = true then
                (if Q_stricmp "klingon" sampleClient.cl_localization_language ≠ 0
                 then ["klingon"] else [])
              else ["english"])
      ∧ (isLanguage "klingon" = false → Q_stricmp "english" "klingon" ≠ 0)
      ∧ isLanguage "english" = true :=
  ⟨by decide, by decide,
   language_variable_stays_valid sampleLocEnv false 2 "klingon" sampleClient (by decide)
     (by decide)⟩
